import Mathlib

/-!
# VoreenVE: visualization glue and main window (`apps/voreenve/voreenmainwindow.cpp`)

A shallow embedding of `VoreenVisualization` and of the parts of
`VoreenMainWindow` that drive it.

* Objects reached through pointers (`ProcessorNetwork*`) live in an explicit
  free store; a pointer is `Option Nat` (`none` is the null pointer).  Reading
  through a null or deleted pointer, and deleting a deleted object, have no
  defined result: the operation returns `none`.
* A function that may let a `SerializerException` escape returns
  `Except SerializerException _` together with the state at that point.
* Calls into collaborators whose code is outside the translated file (the
  network evaluator, the canvas, the network editor, the serializer, Qt
  dialogs) are recorded, in program order, in a trace; what they return is
  taken from an environment `Env`.
* The widgets (`canvasWidget_`, `networkEditorWidget_`, ...) are installed by
  the main window before any of the operations below run, so they are not
  modelled as nullable.
-/

namespace Voreen

/-! ## Data model -/

/-- A `Processor*`: the identity of the object and whether
`dynamic_cast<tgt::EventListener*>` succeeds on it. -/
structure Processor where
  id : Nat
  isEventListener : Bool
  deriving DecidableEq, Repr

/-- An observer registered with a processor network: the visualization object
(`this` in `VoreenVisualization`) or some other observer. -/
inductive Observer where
  | visualization
  | other (n : Nat)
  deriving DecidableEq, Repr

/-- Modelled from the spec: class `ProcessorNetwork` is only used, not defined,
in the translated file.  The network owns its processor list, carries the
target-reuse flag written by `serialize`, keeps its registered observers and
the list of structural problems returned by `getErrors()`. -/
structure ProcessorNetwork where
  processors : List Processor
  reuseTargets : Bool
  observers : List Observer
  errors : List String
  deriving DecidableEq, Repr

/-- Modelled from the spec: `new ProcessorNetwork()`, a network with zero
processors, no observers and no errors. -/
def ProcessorNetwork.new : ProcessorNetwork :=
  { processors := [], reuseTargets := false, observers := [], errors := [] }

/-- Modelled from the spec: `ProcessorNetwork::getNumProcessors()`. -/
def ProcessorNetwork.getNumProcessors (net : ProcessorNetwork) : Nat :=
  net.processors.length

/-- Modelled from the spec: `ProcessorNetwork::getProcessors()`. -/
def ProcessorNetwork.getProcessors (net : ProcessorNetwork) : List Processor :=
  net.processors

/-- Modelled from the spec: `ProcessorNetwork::setReuseTargets(bool)` writes the
target-reuse flag. -/
def ProcessorNetwork.setReuseTargets (net : ProcessorNetwork) (b : Bool) : ProcessorNetwork :=
  { net with reuseTargets := b }

/-- Modelled from the spec: `ProcessorNetwork::addObserver` registers an
observer (observers are notified in registration order). -/
def ProcessorNetwork.addObserver (net : ProcessorNetwork) (o : Observer) : ProcessorNetwork :=
  { net with observers := net.observers ++ [o] }

/-- Modelled from the spec: `ProcessorNetwork::removeObserver`. -/
def ProcessorNetwork.removeObserver (net : ProcessorNetwork) (o : Observer) : ProcessorNetwork :=
  { net with observers := net.observers.filter (fun x => x ≠ o) }

/-- Modelled from the spec: `ProcessorNetwork::getErrors()`. -/
def ProcessorNetwork.getErrors (net : ProcessorNetwork) : List String :=
  net.errors

/-- One iteration `procs.push_back(net->getProcessors()[i])`. -/
def collectStep (net : ProcessorNetwork) (procs : List Processor) (i : Nat) : List Processor :=
  match net.getProcessors[i]? with
  | some p => procs ++ [p]
  | none => procs

/-- The loop
`for (int i = 0; i < net->getNumProcessors(); ++i) procs.push_back(net->getProcessors()[i]);`
used by `clearScene`, `setNetwork` and `evaluateNetwork`. -/
def collectProcessors (net : ProcessorNetwork) : List Processor :=
  (List.range net.getNumProcessors).foldl (collectStep net) []

/-! ## The canvas event handler (`tgt::EventHandler`) -/

namespace EventHandler

/-- Modelled from the spec: `tgt::EventHandler` is declared outside the
translated file.  The listener chain is the ordered chain of section 4.2,
delivered front to back; `addListenerToFront`, as named at its call site in
`processorAdded`, puts the listener at the front of that chain. -/
def addListenerToFront (chain : List Processor) (l : Processor) : List Processor :=
  l :: chain

/-- Modelled from the spec: `tgt::EventHandler::addListenerToBack`. -/
def addListenerToBack (chain : List Processor) (l : Processor) : List Processor :=
  chain ++ [l]

/-- Modelled from the spec: `tgt::EventHandler::removeListener` walks the chain
and erases the registrations tied to `l`, keeping the others in place. -/
def removeListener : List Processor → Processor → List Processor
  | [], _ => []
  | x :: rest, l => if x = l then removeListener rest l else x :: removeListener rest l

/-- Modelled from the spec: delivery of one event.  Listeners receive it front
to back; a listener that consumes it stops the propagation.  The result is the
list of listeners that received the event, in delivery order. -/
def broadcast (consumes : Processor → Bool) : List Processor → List Processor
  | [] => []
  | x :: rest => if consumes x then [x] else x :: broadcast consumes rest

/-- Listener `a` is registered in the chain and stands nearer its front than `b`. -/
def nearerFront (chain : List Processor) (a b : Processor) : Prop :=
  a ∈ chain ∧ chain.indexOf a < chain.indexOf b

end EventHandler

namespace NetworkSerializer

/-- Modelled from the spec: `NetworkSerializer::removeEventListenersFromHandler`
("Remove those processors from the EventHandler which were added to it because
they inherit from tgt::EventListener"). -/
def removeEventListenersFromHandler (chain : List Processor) (procs : List Processor) :
    List Processor :=
  procs.foldl
    (fun c p => if p.isEventListener then EventHandler.removeListener c p else c) chain

/-- Modelled from the spec: `NetworkSerializer::connectEventListenersToHandler`
("add all processors which inherit from tgt::EventListener to the canvas'
EventHandler"), at the front or at the back of the chain. -/
def connectEventListenersToHandler (chain : List Processor) (procs : List Processor)
    (addToFront : Bool) : List Processor :=
  procs.foldl
    (fun c p =>
      if p.isEventListener then
        (if addToFront then EventHandler.addListenerToFront c p
         else EventHandler.addListenerToBack c p)
      else c) chain

end NetworkSerializer

/-! ## Free store of processor networks -/

/-- The free store: slot `a` holds the network at address `a`, or `none` once
it has been deleted. -/
abbrev Heap := List (Option ProcessorNetwork)

/-- Reads `*p`. -/
def Heap.lookup (h : Heap) (a : Nat) : Option ProcessorNetwork :=
  (h.get? a).join

/-- Allocates `new ProcessorNetwork(...)`; returns the fresh address. -/
def Heap.alloc (h : Heap) (net : ProcessorNetwork) : Nat × Heap :=
  (h.length, h ++ [some net])

/-- Writes through a pointer to a live object. -/
def Heap.store (h : Heap) (a : Nat) (net : ProcessorNetwork) : Heap :=
  h.set a (some net)

/-- Executes `delete p`: a no-op on the null pointer, undefined on an object that is not
live. -/
def Heap.delete (h : Heap) : Option Nat → Option Heap
  | none => some h
  | some a =>
    match h.lookup a with
    | some _ => some (h.set a none)
    | none => none

/-! ## Collaborator calls and their results -/

/-- The exception type thrown by the serializer; `what` is `e.what()`. -/
structure SerializerException where
  what : String
  deriving DecidableEq, Repr

/-- Messages posted through `MsgDistr`. -/
inductive Message where
  | updateVolumeSetContainer
  | cameraChanged
  | repaint
  | evaluatorUpdated
  deriving DecidableEq, Repr

/-- Calls made by `VoreenVisualization` into its collaborators and the signals it
emits, as they appear in the trace. -/
inductive Call where
  | setVolumeSetContainer
  | setProcessors (ps : List Processor)
  | postMessage (m : Message)
  | analyze
  | getGLFocus
  | setSize (size : Nat × Nat)
  | initializeGL
  | repaint
  | rebuildAllShadersFromFile
  | invalidateRendering
  | canvasUpdate
  | readNetworkFromFile (filename : String)
  | serializeToXml (net : ProcessorNetwork) (filename : String)
  | workspaceSerializeToXml (net : ProcessorNetwork) (filename : String)
  | geoClearDeleting
  | editorClearScene
  | editorSetNetwork (p : Option Nat)
  | emitNetworkLoaded (p : Option Nat)
  | emitNetworkModified (p : Option Nat)
  | reinitializeCamera
  deriving DecidableEq, Repr

/-- What the collaborators return.  `VRN_OK` is `Processor::VRN_OK`; `analyze`
and `initializeGL` are the evaluator's results for the processor list it was
given; `usable` and `hasToolWindow` describe the tool plugins of the main
window. -/
structure Env where
  VRN_OK : Int
  analyze : List Processor → Int
  initializeGL : List Processor → Int
  canvasSize : Nat × Nat
  rebuildAllShadersFromFile : Bool
  readNetworkFromFile : String → Except SerializerException ProcessorNetwork
  serializeToXml : ProcessorNetwork → String → Except SerializerException Unit
  workspaceSerializeToXml : ProcessorNetwork → String → Except SerializerException Unit
  usable : Nat → List Processor → Bool
  hasToolWindow : Nat → Bool

/-! ## VoreenVisualization -/

/-- The state of a `VoreenVisualization` together with the objects it reaches:
the free store holding processor networks, the evaluator's processor list, the
listener chain of the canvas' event handler, and the trace of collaborator
calls. -/
structure VoreenVisualization where
  heap : Heap
  processorNetwork_ : Option Nat
  readOnlyWorkspace_ : Bool
  evaluatorProcessors : List Processor
  eventHandler : List Processor
  trace : List Call
  deriving DecidableEq, Repr

namespace VoreenVisualization

/-- Appends calls to the trace. -/
def record (s : VoreenVisualization) (cs : List Call) : VoreenVisualization :=
  { s with trace := s.trace ++ cs }

/-- The network `*processorNetwork_`, when the pointer is non-null and live. -/
def network (s : VoreenVisualization) : Option ProcessorNetwork :=
  match s.processorNetwork_ with
  | none => none
  | some a => s.heap.lookup a

/-- The constructor: `processorNetwork_(new ProcessorNetwork())`, a fresh evaluator with no
processors; no observer is added to the network here.  The canvas installed afterwards
has no listener yet. -/
def new : VoreenVisualization :=
  { heap := [some ProcessorNetwork.new]
    processorNetwork_ := some 0
    readOnlyWorkspace_ := false
    evaluatorProcessors := []
    eventHandler := []
    trace := [] }

/-- The processors sent to the evaluator by `evaluateNetwork`: those of the
network, or none when `processorNetwork_` is null. -/
def currentProcessors (s : VoreenVisualization) : Option (List Processor) :=
  match s.processorNetwork_ with
  | none => some []
  | some a =>
    match s.heap.lookup a with
    | some net => some (collectProcessors net)
    | none => none

/-- Embeds `VoreenVisualization::saveNetwork(filename, reuseTCTargets)`. -/
def saveNetwork (env : Env) (s : VoreenVisualization) (filename : String)
    (reuseTCTargets : Bool) : Option (Except SerializerException Unit × VoreenVisualization) :=
  match s.processorNetwork_ with
  | none => none
  | some a =>
    match s.heap.lookup a with
    | none => none
    | some net =>
      let net1 := net.setReuseTargets reuseTCTargets
      let s1 := ({ s with heap := s.heap.store a net1 }).record [.serializeToXml net1 filename]
      match env.serializeToXml net1 filename with
      | .ok _ => some (.ok (), s1)
      | .error e =>
        match s1.heap.delete s1.processorNetwork_ with
        | none => none
        | some h => some (.error e, { s1 with heap := h })

/-- Embeds `VoreenVisualization::newWorkspace()`. -/
def newWorkspace (s : VoreenVisualization) : VoreenVisualization :=
  { s with readOnlyWorkspace_ := false }

/-- Embeds `VoreenVisualization::saveWorkspace(filename, reuseTCTargets, mainwindow)`. -/
def saveWorkspace (env : Env) (s : VoreenVisualization) (filename : String)
    (reuseTCTargets : Bool) : Option (Except SerializerException Unit × VoreenVisualization) :=
  let s0 := { s with readOnlyWorkspace_ := false }
  match s0.processorNetwork_ with
  | none => none
  | some a =>
    match s0.heap.lookup a with
    | none => none
    | some net =>
      let net1 := net.setReuseTargets reuseTCTargets
      let s1 := ({ s0 with heap := s0.heap.store a net1 }).record
        [.workspaceSerializeToXml net1 filename]
      match env.workspaceSerializeToXml net1 filename with
      | .ok _ => some (.ok (), s1)
      | .error e => some (.error e, s1)

/-- Embeds `VoreenVisualization::setNetwork(network)`. -/
def setNetwork (s : VoreenVisualization) (network : Option Nat) : Option VoreenVisualization := do
  let s1 ←
    if network ≠ s.processorNetwork_ then do
      let s' ←
        match s.processorNetwork_ with
        | some a => do
          let old ← s.heap.lookup a
          let chain := NetworkSerializer.removeEventListenersFromHandler s.eventHandler
            old.getProcessors
          pure { s with eventHandler := chain
                        heap := s.heap.store a (old.removeObserver .visualization) }
        | none => pure s
      let h ← s'.heap.delete s'.processorNetwork_
      let b ← network
      let net ← h.lookup b
      pure { s' with heap := h.store b (net.addObserver .visualization)
                     processorNetwork_ := some b }
    else pure s
  let s2 := s1.record [.editorSetNetwork s1.processorNetwork_,
    .emitNetworkLoaded s1.processorNetwork_]
  let a ← s2.processorNetwork_
  let net ← s2.heap.lookup a
  let procs := collectProcessors net
  pure { s2 with eventHandler :=
    NetworkSerializer.connectEventListenersToHandler s2.eventHandler procs true }

/-- Embeds `VoreenVisualization::clearScene()`. -/
def clearScene (s : VoreenVisualization) : Option VoreenVisualization := do
  let s1 ←
    match s.processorNetwork_ with
    | some a => do
      let net ← s.heap.lookup a
      let procs := collectProcessors net
      let s' := ({ s with evaluatorProcessors := [] }).record [.setProcessors []]
      pure { s' with eventHandler :=
        NetworkSerializer.removeEventListenersFromHandler s'.eventHandler procs }
    | none => pure s
  let s2 := s1.record [.geoClearDeleting, .editorClearScene]
  let h ← s2.heap.delete s2.processorNetwork_
  let fresh := Heap.alloc h ProcessorNetwork.new
  setNetwork { s2 with heap := fresh.2, processorNetwork_ := some fresh.1 } (some fresh.1)

/-- Embeds `VoreenVisualization::getNetworkErrors()`. -/
def getNetworkErrors (s : VoreenVisualization) : Option (List String) :=
  s.network.map ProcessorNetwork.getErrors

/-- Embeds `VoreenVisualization::evaluateNetwork()`. -/
def evaluateNetwork (env : Env) (s : VoreenVisualization) :
    Option (Bool × VoreenVisualization) :=
  match s.currentProcessors with
  | none => none
  | some processors =>
    let s1 := ({ s with evaluatorProcessors := processors }).record
      [.setVolumeSetContainer, .setProcessors processors,
       .postMessage .updateVolumeSetContainer]
    let s2 := s1.record [.analyze]
    if env.analyze processors ≥ 0 then
      let s3 := s2.record [.getGLFocus, .setSize env.canvasSize, .initializeGL]
      if env.initializeGL processors ≠ env.VRN_OK then
        some (false, s3)
      else
        some (true, s3.record [.repaint])
    else
      some (true, s2)

/-- Embeds `VoreenVisualization::rebuildShaders()`. -/
def rebuildShaders (env : Env) (s : VoreenVisualization) : Bool × VoreenVisualization :=
  let s1 := s.record [.rebuildAllShadersFromFile]
  if env.rebuildAllShadersFromFile then
    (true, s1.record [.invalidateRendering, .canvasUpdate])
  else
    (false, s1)

/-- Embeds `VoreenVisualization::networkChanged()`. -/
def networkChanged (s : VoreenVisualization) : VoreenVisualization :=
  s.record [.emitNetworkModified s.processorNetwork_]

/-- Embeds `VoreenVisualization::processorAdded(processor)`. -/
def processorAdded (s : VoreenVisualization) (processor : Processor) : VoreenVisualization :=
  let s1 :=
    if processor.isEventListener then
      { s with eventHandler := EventHandler.addListenerToFront s.eventHandler processor }
    else s
  s1.record [.emitNetworkModified s1.processorNetwork_]

/-- Embeds `VoreenVisualization::processorRemoved(processor)`. -/
def processorRemoved (s : VoreenVisualization) (processor : Processor) : VoreenVisualization :=
  let s1 :=
    if processor.isEventListener then
      { s with eventHandler := EventHandler.removeListener s.eventHandler processor }
    else s
  s1.record [.emitNetworkModified s1.processorNetwork_]

end VoreenVisualization

/-! ## Qt value types and `QDataStream` (big endian, `Qt_4_0`) -/

/-- One byte of a `QByteArray`. -/
abbrev Byte := Fin 256

/-- A `QByteArray`. -/
abbrev QByteArray := List Byte

/-- A `QPoint`. -/
structure QPoint where
  x : Int
  y : Int
  deriving DecidableEq, Repr

/-- A `QSize`. -/
structure QSize where
  width : Int
  height : Int
  deriving DecidableEq, Repr

/-- A `QRect`, stored as Qt stores it: the coordinates of its top-left and
bottom-right corners. -/
structure QRect where
  x1 : Int
  y1 : Int
  x2 : Int
  y2 : Int
  deriving DecidableEq, Repr

/-- The test `QSize::isNull()`. -/
def QSize.isNull (s : QSize) : Bool := s.width == 0 && s.height == 0

/-- The test `QRect::isValid()`. -/
def QRect.isValid (r : QRect) : Bool := decide (r.x1 ≤ r.x2) && decide (r.y1 ≤ r.y2)

/-- The constructor `QRect(const QPoint& topLeft, const QSize& size)`. -/
def QRect.ofPointSize (p : QPoint) (s : QSize) : QRect :=
  { x1 := p.x, y1 := p.y, x2 := p.x + s.width - 1, y2 := p.y + s.height - 1 }

/-- The accessor `QRect::topLeft()`. -/
def QRect.topLeft (r : QRect) : QPoint := { x := r.x1, y := r.y1 }

/-- The accessor `QRect::size()`. -/
def QRect.size (r : QRect) : QSize := { width := r.x2 - r.x1 + 1, height := r.y2 - r.y1 + 1 }

namespace QDataStream

/-- The byte `n mod 256`. -/
def byte (n : Nat) : Byte := ⟨n % 256, Nat.mod_lt _ (by decide)⟩

/-- The value of a byte sequence read as a big-endian unsigned number. -/
def bigEndian (bytes : List Byte) : Nat :=
  bytes.foldl (fun acc b => acc * 256 + b.val) 0

/-- Writes a `quint8`. -/
def writeUInt8 (v : Nat) : QByteArray := [byte v]

/-- Writes a `quint16`, most significant byte first. -/
def writeUInt16 (v : Nat) : QByteArray := [byte (v / 256), byte v]

/-- Writes a `quint32`, most significant byte first. -/
def writeUInt32 (v : Nat) : QByteArray :=
  [byte (v / 16777216), byte (v / 65536), byte (v / 256), byte v]

/-- Writes a `qint32` in two's complement. -/
def writeInt32 (v : Int) : QByteArray := writeUInt32 (v % 4294967296).toNat

/-- Writes a `QRect`: left, top, right, bottom as `qint32`. -/
def writeRect (r : QRect) : QByteArray :=
  writeInt32 r.x1 ++ writeInt32 r.y1 ++ writeInt32 r.x2 ++ writeInt32 r.y2

/-- Reads a `quint8`: the value and the rest of the stream.  When the stream has
ended the value is 0. -/
def readUInt8 : QByteArray → Nat × QByteArray
  | b0 :: rest => (b0.val, rest)
  | [] => (0, [])

/-- Reads a `quint16`.  When fewer than two bytes are left the device is drained
and the value is 0. -/
def readUInt16 : QByteArray → Nat × QByteArray
  | b0 :: b1 :: rest => (b0.val * 256 + b1.val, rest)
  | _ => (0, [])

/-- Reads a `quint32`.  When fewer than four bytes are left the device is drained
and the value is 0. -/
def readUInt32 : QByteArray → Nat × QByteArray
  | b0 :: b1 :: b2 :: b3 :: rest =>
    (((b0.val * 256 + b1.val) * 256 + b2.val) * 256 + b3.val, rest)
  | _ => (0, [])

/-- Reads a `qint32`: the unsigned value reinterpreted in two's complement. -/
def readInt32 (bytes : QByteArray) : Int × QByteArray :=
  let r := readUInt32 bytes
  ((if r.1 < 2147483648 then (r.1 : Int) else (r.1 : Int) - 4294967296), r.2)

/-- Reads a `QRect`: four `qint32` passed to `setCoords`. -/
def readRect (bytes : QByteArray) : QRect × QByteArray :=
  let a := readInt32 bytes
  let b := readInt32 a.2
  let c := readInt32 b.2
  let d := readInt32 c.2
  ({ x1 := a.1, y1 := b.1, x2 := c.1, y2 := d.1 }, d.2)

end QDataStream

/-! ## VoreenMdiSubWindow -/

/-- The flags of `Qt::WindowStates` (`Qt::WindowMinimized` = 1,
`Qt::WindowMaximized` = 2, `Qt::WindowFullScreen` = 4, `Qt::WindowActive` = 8),
one boolean per bit. -/
structure WindowStates where
  minimized : Bool
  maximized : Bool
  fullScreen : Bool
  active : Bool
  deriving DecidableEq, Repr

/-- Geometry requests a window passes on to Qt. -/
inductive GeometryCall where
  | setGeometry (r : QRect)
  | move (p : QPoint)
  | resize (s : QSize)
  deriving DecidableEq, Repr

/-- The state of a `VoreenMdiSubWindow` as far as `saveGeometry` and
`restoreGeometry` read and write it: what `frameGeometry()`,
`normalGeometry()`, `windowState()` and `sizeHint()` return, and the geometry
requests made so far. -/
structure VoreenMdiSubWindow where
  frameGeometry : QRect
  normalGeometry : QRect
  windowState : WindowStates
  sizeHint : QSize
  requests : List GeometryCall
  deriving DecidableEq, Repr

namespace VoreenMdiSubWindow

/-- The constant `magicNumber` of `saveGeometry` and `restoreGeometry`. -/
def magicNumber : Nat := 0x1234FFFF

/-- The value `quint8(windowState() & Qt::WindowMaximized)`. -/
def maximizedByte (w : VoreenMdiSubWindow) : Nat :=
  if w.windowState.maximized then 2 else 0

/-- The call `setGeometry(r)`, passed on to Qt. -/
def setGeometry (w : VoreenMdiSubWindow) (r : QRect) : VoreenMdiSubWindow :=
  { w with requests := w.requests ++ [GeometryCall.setGeometry r] }

/-- The call `move(p)`, passed on to Qt. -/
def move (w : VoreenMdiSubWindow) (p : QPoint) : VoreenMdiSubWindow :=
  { w with requests := w.requests ++ [GeometryCall.move p] }

/-- The call `resize(s)`, passed on to Qt. -/
def resize (w : VoreenMdiSubWindow) (s : QSize) : VoreenMdiSubWindow :=
  { w with requests := w.requests ++ [GeometryCall.resize s] }

/-- The call `setWindowState(ws)`. -/
def setWindowState (w : VoreenMdiSubWindow) (ws : WindowStates) : VoreenMdiSubWindow :=
  { w with windowState := ws }

/-- Embeds `VoreenMdiSubWindow::saveGeometry()`. -/
def saveGeometry (w : VoreenMdiSubWindow) : QByteArray :=
  let majorVersion := 1
  let minorVersion := 0
  QDataStream.writeUInt32 magicNumber
    ++ QDataStream.writeUInt16 majorVersion
    ++ QDataStream.writeUInt16 minorVersion
    ++ QDataStream.writeRect w.frameGeometry
    ++ QDataStream.writeRect w.normalGeometry
    ++ QDataStream.writeUInt8 w.maximizedByte

/-- Embeds `VoreenMdiSubWindow::restoreGeometry(geometry)`: the result and the
window afterwards. -/
def restoreGeometry (w : VoreenMdiSubWindow) (geometry : QByteArray) :
    Bool × VoreenMdiSubWindow :=
  if geometry.length < 4 then (false, w)
  else
    let storedMagicNumber := QDataStream.readUInt32 geometry
    if storedMagicNumber.1 ≠ magicNumber then (false, w)
    else
      let currentMajorVersion := 1
      let majorVersion := QDataStream.readUInt16 storedMagicNumber.2
      let minorVersion := QDataStream.readUInt16 majorVersion.2
      if majorVersion.1 ≠ currentMajorVersion then (false, w)
      else
        let restoredFrame := QDataStream.readRect minorVersion.2
        let restoredNormal := QDataStream.readRect restoredFrame.2
        let maximized := QDataStream.readUInt8 restoredNormal.2
        let frameHeight := 20
        let restoredFrameGeometry :=
          if !restoredFrame.1.isValid then QRect.ofPointSize { x := 0, y := 0 } w.sizeHint
          else restoredFrame.1
        let restoredNormalGeometry :=
          if !restoredNormal.1.isValid then
            QRect.ofPointSize { x := 0, y := frameHeight } w.sizeHint
          else restoredNormal.1
        if maximized.1 ≠ 0 then
          let w1 := w.setGeometry restoredNormalGeometry
          let ws := w1.windowState
          let ws := if maximized.1 ≠ 0 then { ws with maximized := true } else ws
          (true, w1.setWindowState ws)
        else
          let offset : QPoint := { x := 0, y := 0 }
          let w1 := w.setWindowState
            { w.windowState with maximized := false, fullScreen := false }
          let topLeft := restoredFrameGeometry.topLeft
          let w2 := w1.move { x := topLeft.x + offset.x, y := topLeft.y + offset.y }
          (true, w2.resize restoredNormalGeometry.size)

/-- The state change of `QWidget::showMaximized()`: minimized and full-screen are cleared,
maximized is set. -/
def showMaximized (w : VoreenMdiSubWindow) : VoreenMdiSubWindow :=
  w.setWindowState { w.windowState with minimized := false, fullScreen := false,
                                        maximized := true }

/-- The state change of `QWidget::showNormal()`: minimized, maximized and full-screen are
cleared. -/
def showNormal (w : VoreenMdiSubWindow) : VoreenMdiSubWindow :=
  w.setWindowState { w.windowState with minimized := false, maximized := false,
                                        fullScreen := false }

end VoreenMdiSubWindow

/-! ## QSettings -/

/-- The `QVariant` values stored in the settings. -/
inductive QVariant where
  | invalid
  | bool (b : Bool)
  | int (n : Int)
  | string (s : String)
  | stringList (l : List String)
  | byteArray (b : QByteArray)
  | size (s : QSize)
  | point (p : QPoint)
  deriving DecidableEq, Repr

namespace QVariant

/-- The conversion `QVariant::toBool()`: a boolean is itself, a number is true when
non-zero, a string is true unless it is empty, "0" or "false"; anything else is false. -/
def toBool : QVariant → Bool
  | .bool b => b
  | .int n => n != 0
  | .string s => !(s == "" || s == "0" || s == "false")
  | _ => false

/-- The conversion `QVariant::toString()` on a string; other values give the empty string. -/
def toQString : QVariant → String
  | .string s => s
  | _ => ""

/-- The conversion `QVariant::toByteArray()` on a byte array; other values give the empty array. -/
def toByteArray : QVariant → QByteArray
  | .byteArray b => b
  | _ => []

/-- The conversion `QVariant::toSize()` on a size; other values give the invalid `QSize()`. -/
def toSize : QVariant → QSize
  | .size s => s
  | _ => { width := -1, height := -1 }

/-- The conversion `QVariant::toPoint()` on a point; other values give `QPoint()`. -/
def toPoint : QVariant → QPoint
  | .point p => p
  | _ => { x := 0, y := 0 }

end QVariant

/-- The contents of a `QSettings` object: full keys (group, slash, name) with their
values.  Keys are compared exactly, character by character. -/
abbrev QSettings := List (String × QVariant)

/-- The call `QSettings::setValue(key, value)`. -/
def QSettings.setValue (s : QSettings) (key : String) (value : QVariant) : QSettings :=
  (key, value) :: s.filter (fun e => e.1 != key)

/-- The call `QSettings::value(key, defaultValue)`. -/
def QSettings.value (s : QSettings) (key : String) (defaultValue : QVariant) : QVariant :=
  match s.find? (fun e => e.1 == key) with
  | some e => e.2
  | none => defaultValue

/-- The enumeration `GuiMode`. -/
inductive GuiMode where
  | MODE_NONE
  | MODE_VISUALIZATION
  | MODE_NETWORK
  deriving DecidableEq, Repr

/-- The constant `WINDOW_STATE_VERSION`. -/
def WINDOW_STATE_VERSION : Nat := 10

/-- A tool window as `saveSettings` sees it. -/
structure ToolWindow where
  objectName : String
  visible : Bool
  pos : QPoint
  size : QSize
  deriving DecidableEq, Repr

/-- What the application and `QMainWindow` return to the settings code: the default
paths of `VoreenApplication`, and the bytes of `QMainWindow::saveState(version)`. -/
structure AppEnv where
  networkPath : String
  workspacePath : String
  volumePath : String
  saveState : Nat → QByteArray
  restoreState : QByteArray → Nat → Bool := fun _ _ => false

/-! ## VoreenMainWindow -/

/-- The constant `MAX_RECENT_FILES`. -/
def MAX_RECENT_FILES : Nat := 5

/-- The widgets and actions of the main window that `setGuiMode` shows, hides or
switches. -/
inductive Widget where
  | canvasWidget
  | networkEditorWindow
  | networkEditorWidget
  | renderWindow
  | processorListTool
  | propertyListTool
  | modeVisualizationAction
  | modeNetworkAction
  | processorListAction
  deriving DecidableEq, Repr

/-- Calls made by the main window into Qt and its widgets, as they appear in its
trace. -/
inductive UiCall where
  | setOverrideCursor
  | restoreOverrideCursor
  | processEvents
  | updateWindowTitle
  | updateRecentFiles
  | propertyListClear
  | consoleShow
  | showMessage (text : String)
  | critical (title : String) (text : String)
  | actionSetVisible (tool : Nat) (visible : Bool)
  | toolWindowSetVisible (tool : Nat) (visible : Bool)
  | postMessage (m : Message)
  | logInfo (text : String)
  | logWarning (text : String)
  | setUpdatesEnabled (widget : Widget) (enable : Bool)
  | setVisible (widget : Widget) (visible : Bool)
  | hide (widget : Widget)
  | show (widget : Widget)
  | showMaximized (widget : Widget)
  | showNormal (widget : Widget)
  | setChecked (widget : Widget) (checked : Bool)
  | setEnabled (widget : Widget) (enabled : Bool)
  | restoreState (state : QByteArray) (version : Nat)
  | propertyListSetState (state : String) (level : String)
  deriving DecidableEq, Repr

/-- The state of a `VoreenMainWindow`: the visualization `*vis_`, the file names
it tracks, the `recentFileList` entry of `settings_`, the window-modified flag,
the tool plugins, and the trace of user-interface calls; then the members read
and written by the settings code: the other entries of `settings_`, the GUI
mode and its saved window states, the paths, the window's own size, position
and state, the two MDI sub-windows and the tool windows. -/
structure VoreenMainWindow where
  vis_ : VoreenVisualization
  currentNetwork_ : String
  currentWorkspace_ : String
  lastWorkspace_ : String
  recentFileList : List String
  windowModified : Bool
  tools_ : List Nat
  ui : List UiCall
  settings_ : QSettings := []
  resetSettings_ : Bool := false
  guiMode_ : GuiMode := GuiMode.MODE_NONE
  loadLastWorkspace_ : Bool := false
  visualizationModeState_ : QByteArray := []
  networkModeState_ : QByteArray := []
  renderWindowStateVisualizationMode_ : QByteArray := []
  renderWindowStateNetworkMode_ : QByteArray := []
  networkEditorWindowState_ : QByteArray := []
  networkPath_ : String := ""
  workspacePath_ : String := ""
  datasetPath_ : String := ""
  volumeSetCurrentDirectory : String := ""
  size_ : QSize := { width := 1024, height := 768 }
  pos_ : QPoint := { x := 0, y := 0 }
  windowState_ : WindowStates :=
    { minimized := false, maximized := false, fullScreen := false, active := false }
  renderWindow_ : VoreenMdiSubWindow :=
    { frameGeometry := { x1 := 0, y1 := 0, x2 := 99, y2 := 99 }
      normalGeometry := { x1 := 0, y1 := 0, x2 := 99, y2 := 99 }
      windowState :=
        { minimized := false, maximized := false, fullScreen := false, active := false }
      sizeHint := { width := 100, height := 100 }
      requests := [] }
  networkEditorWindow_ : VoreenMdiSubWindow :=
    { frameGeometry := { x1 := 0, y1 := 0, x2 := 99, y2 := 99 }
      normalGeometry := { x1 := 0, y1 := 0, x2 := 99, y2 := 99 }
      windowState :=
        { minimized := false, maximized := false, fullScreen := true, active := false }
      sizeHint := { width := 100, height := 100 }
      requests := [] }
  toolWindows_ : List ToolWindow := []
  deriving DecidableEq, Repr

namespace VoreenMainWindow

/-- Appends calls to the user-interface trace. -/
def record (w : VoreenMainWindow) (cs : List UiCall) : VoreenMainWindow :=
  { w with ui := w.ui ++ cs }

/-- The loop `while (files.size() > MAX_RECENT_FILES) files.removeLast();`; the
first argument bounds the number of iterations. -/
def removeLastLoop : Nat → List String → List String
  | 0, files => files
  | fuel + 1, files =>
    if files.length > MAX_RECENT_FILES then removeLastLoop fuel files.dropLast else files

/-- Embeds `VoreenMainWindow::addToRecentFiles(filename)`. -/
def addToRecentFiles (w : VoreenMainWindow) (filename : String) : VoreenMainWindow :=
  let files := w.recentFileList
  let files := files.filter (fun f => f ≠ "")
  let files := files.filter (fun f => f ≠ filename)
  let files := filename :: files
  let files := removeLastLoop files.length files
  ({ w with recentFileList := files }).record [.updateRecentFiles]

/-- Embeds `VoreenMainWindow::clearScene()`. -/
def clearScene (w : VoreenMainWindow) : Option VoreenMainWindow := do
  let v ← w.vis_.clearScene
  pure (({ w with vis_ := v }).record [.propertyListClear])

/-- The text shown by `showNetworkErrors` for a non-empty error list. -/
def networkErrorsMessage (errors : List String) : String :=
  let msg := errors.foldl (fun acc e => acc ++ ("<li>" ++ e ++ "</li>\n")) ""
  "There were " ++ toString errors.length ++ " errors loading the network:\n<ul>"
    ++ msg ++ "\n</ul>"

/-- Embeds `VoreenMainWindow::showNetworkErrors()`. -/
def showNetworkErrors (w : VoreenMainWindow) : Option VoreenMainWindow := do
  let errors ← w.vis_.getNetworkErrors
  if !errors.isEmpty then
    pure (w.record [.showMessage (networkErrorsMessage errors)])
  else
    pure w

/-- Embeds `VoreenMainWindow::setNetwork(network)`. -/
def setNetwork (w : VoreenMainWindow) (network : Option Nat) : Option VoreenMainWindow := do
  let w1 ← w.clearScene
  let v ← w1.vis_.setNetwork network
  let w2 := ({ w1 with vis_ := v, windowModified := false }).record [.processEvents]
  w2.showNetworkErrors

/-- The text of the dialog shown when `VoreenVisualization::evaluateNetwork` returns false. -/
def initializationFailedText : String :=
  "Initialization of one or more processors failed.\n" ++
  "Please check the console or log file for error messages."

/-- The body of the `foreach (p, tools_)` loop of `evaluateNetwork` for one tool. -/
def updateTool (env : Env) (w : VoreenMainWindow) (tool : Nat) : VoreenMainWindow :=
  let usable := env.usable tool w.vis_.evaluatorProcessors
  let w1 := w.record [.actionSetVisible tool usable]
  if env.hasToolWindow tool && !usable then
    w1.record [.toolWindowSetVisible tool false]
  else w1

/-- Embeds `VoreenMainWindow::evaluateNetwork()`. -/
def evaluateNetwork (env : Env) (w : VoreenMainWindow) : Option VoreenMainWindow := do
  let w1 := w.record [.setOverrideCursor]
  let r ← w1.vis_.evaluateNetwork env
  let w2 := { w1 with vis_ := r.2 }
  let w3 :=
    if !r.1 then
      w2.record [.restoreOverrideCursor, .consoleShow, .processEvents,
        .critical "Error" initializationFailedText]
    else w2
  let w4 := w3.tools_.foldl (updateTool env) w3
  pure (w4.record [.postMessage .evaluatorUpdated, .restoreOverrideCursor])

/-- Embeds `VoreenMainWindow::rebuildShaders()`. -/
def rebuildShaders (env : Env) (w : VoreenMainWindow) : VoreenMainWindow :=
  let w1 := w.record [.setOverrideCursor]
  let r := w1.vis_.rebuildShaders env
  let w2 := { w1 with vis_ := r.2 }
  let w3 :=
    if r.1 then
      w2.record [.logInfo "Shaders reloaded"]
    else
      w2.record [.logWarning "Shader reloading failed", .restoreOverrideCursor, .consoleShow,
        .processEvents,
        .critical "Shader reloading"
          "Shader reloading failed.\nSee the Debug Console for details."]
  w3.record [.restoreOverrideCursor]

/-- Embeds `VoreenMainWindow::modified()`. -/
def modified (w : VoreenMainWindow) : VoreenMainWindow :=
  { w with windowModified := true }

/-- The connection
`connect(vis_, SIGNAL(networkModified(ProcessorNetwork*)), this, SLOT(modified()))`
made in `init()`: the slot runs once for every `networkModified` among the
emitted signals. -/
def deliverSignals (w : VoreenMainWindow) (calls : List Call) : VoreenMainWindow :=
  calls.foldl
    (fun acc c =>
      match c with
      | .emitNetworkModified _ => acc.modified
      | _ => acc) w

/-- An observer callback of `*vis_` run while the connections of `init()` are in
place: the signals emitted during the call reach their slots before it returns. -/
def notify (w : VoreenMainWindow) (callback : VoreenVisualization → VoreenVisualization) :
    VoreenMainWindow :=
  let v := callback w.vis_
  deliverSignals { w with vis_ := v } (v.trace.drop w.vis_.trace.length)

/-- The calls `resize`, `move` and `setWindowState` at the end of `loadSettings`. -/
def applyWindowSettings (w : VoreenMainWindow) (windowSize : QSize) (windowPosition : QPoint)
    (windowMaximized : Bool) : VoreenMainWindow :=
  let w1 :=
    if windowSize.isNull then { w with size_ := { width := 1024, height := 768 } }
    else { w with size_ := windowSize }
  let w2 := { w1 with pos_ := windowPosition }
  if windowMaximized then
    { w2 with windowState_ := { w2.windowState_ with maximized := true } }
  else w2

/-- Embeds `VoreenMainWindow::loadSettings()`. -/
def loadSettings (app : AppEnv) (w : VoreenMainWindow) : VoreenMainWindow :=
  let w0 := { w with networkPath_ := app.networkPath
                     workspacePath_ := app.workspacePath
                     datasetPath_ := app.volumePath }
  let windowSize : QSize := { width := 0, height := 0 }
  let windowPosition : QPoint := { x := 0, y := 0 }
  let windowMaximized := true
  if !w0.resetSettings_ then
    let st := w0.settings_
    let windowSize := (st.value "MainWindow/size" (.size windowSize)).toSize
    let windowPosition := (st.value "MainWindow/pos" (.point windowPosition)).toPoint
    let windowMaximized := (st.value "MainWindow/maximized" (.bool windowMaximized)).toBool
    let w1 := { w0 with
      lastWorkspace_ := (st.value "MainWindow/workspace" (.string "")).toQString
      loadLastWorkspace_ := (st.value "MainWindow/loadLastWorkspace" (.bool false)).toBool
      visualizationModeState_ :=
        (st.value "MainWindow/visualizationModeState" .invalid).toByteArray
      networkModeState_ := (st.value "MainWindow/networkModeState" .invalid).toByteArray
      renderWindowStateVisualizationMode_ :=
        (st.value "MainWindow/renderWindowStateVisualizationMode" .invalid).toByteArray
      renderWindowStateNetworkMode_ :=
        (st.value "MainWindow/renderWindowStateNetworkMode" .invalid).toByteArray
      networkEditorWindowState_ :=
        (st.value "MainWindow/networkEditorWindowState" .invalid).toByteArray }
    let w2 := { w1 with
      networkPath_ := (st.value "Paths/network" (.string w1.networkPath_)).toQString
      workspacePath_ := (st.value "Paths/workspace" (.string w1.workspacePath_)).toQString
      datasetPath_ := (st.value "Paths/dataset" (.string w1.datasetPath_)).toQString }
    w2.applyWindowSettings windowSize windowPosition windowMaximized
  else
    w0.applyWindowSettings windowSize windowPosition windowMaximized

/-- The body of the tool-window loop of `saveSettings` for one window. -/
def saveToolWindow (st : QSettings) (t : ToolWindow) : QSettings :=
  if !(t.objectName == "") then
    ((st.setValue ("Windows/" ++ t.objectName ++ "/visible") (.bool t.visible)).setValue
      ("Windows/" ++ t.objectName ++ "/pos") (.point t.pos)).setValue
      ("Windows/" ++ t.objectName ++ "/size") (.size t.size)
  else st

/-- Embeds `VoreenMainWindow::saveSettings()`. -/
def saveSettings (app : AppEnv) (w : VoreenMainWindow) : VoreenMainWindow :=
  let st := w.settings_.setValue "ResetSettings" (.bool w.resetSettings_)
  let st := st.setValue "ConfigVersion" (.int 1)
  let w1 :=
    if w.guiMode_ = GuiMode.MODE_VISUALIZATION then
      { w with visualizationModeState_ := app.saveState WINDOW_STATE_VERSION
               renderWindowStateVisualizationMode_ := w.renderWindow_.saveGeometry }
    else if w.guiMode_ = GuiMode.MODE_NETWORK then
      { w with networkModeState_ := app.saveState WINDOW_STATE_VERSION
               renderWindowStateNetworkMode_ := w.renderWindow_.saveGeometry
               networkEditorWindowState_ := w.networkEditorWindow_.saveGeometry }
    else w
  let st := st.setValue "MainWindow/size" (.size w1.size_)
  let st := st.setValue "MainWindow/pos" (.point w1.pos_)
  let st := st.setValue "MainWindow/maximized" (.bool w1.windowState_.maximized)
  let st := st.setValue "MainWindow/workspace" (.string w1.lastWorkspace_)
  let st := st.setValue "MainWindow/loadLastworkspace" (.bool w1.loadLastWorkspace_)
  let st := st.setValue "MainWindow/visualizationModeState"
    (.byteArray w1.visualizationModeState_)
  let st := st.setValue "MainWindow/networkModeState" (.byteArray w1.networkModeState_)
  let st := st.setValue "MainWindow/renderWindowStateVisualizationMode"
    (.byteArray w1.renderWindowStateVisualizationMode_)
  let st := st.setValue "MainWindow/renderWindowStateNetworkMode"
    (.byteArray w1.renderWindowStateNetworkMode_)
  let st := st.setValue "MainWindow/networkEditorWindowState"
    (.byteArray w1.networkEditorWindowState_)
  let st := st.setValue "MainWindow/visualizationMode"
    (.bool (decide (w1.guiMode_ = GuiMode.MODE_VISUALIZATION)))
  let st := st.setValue "Paths/network" (.string w1.networkPath_)
  let st := st.setValue "Paths/workspace" (.string w1.workspacePath_)
  let st := st.setValue "Paths/dataset" (.string w1.volumeSetCurrentDirectory)
  let st := w1.toolWindows_.foldl saveToolWindow st
  { w1 with settings_ := st }

/-- The branch `guiMode == MODE_VISUALIZATION` of `setGuiMode`. -/
def enterVisualizationMode (app : AppEnv) (w : VoreenMainWindow) : VoreenMainWindow :=
  let w1 :=
    if w.guiMode_ = GuiMode.MODE_NETWORK then
      { w with networkModeState_ := app.saveState WINDOW_STATE_VERSION
               renderWindowStateNetworkMode_ := w.renderWindow_.saveGeometry
               networkEditorWindowState_ := w.networkEditorWindow_.saveGeometry }
    else w
  let w2 := w1.record [.hide .networkEditorWindow, .setVisible .networkEditorWidget false,
    .hide .renderWindow, .restoreState w1.visualizationModeState_ WINDOW_STATE_VERSION]
  let w3 :=
    if !app.restoreState w2.visualizationModeState_ WINDOW_STATE_VERSION then
      w2.record [.hide .processorListTool, .show .propertyListTool]
    else w2
  let r := w3.renderWindow_.restoreGeometry w3.renderWindowStateVisualizationMode_
  let w4 :=
    if r.1 then ({ w3 with renderWindow_ := r.2 }).record [.show .renderWindow]
    else ({ w3 with renderWindow_ := r.2.showMaximized }).record [.showMaximized .renderWindow]
  w4.record [.setChecked .modeVisualizationAction true,
    .propertyListSetState "LIST" "USER", .setEnabled .processorListAction false]

/-- The branch `guiMode == MODE_NETWORK` of `setGuiMode`. -/
def enterNetworkMode (app : AppEnv) (w : VoreenMainWindow) : VoreenMainWindow :=
  let w1 :=
    if w.guiMode_ = GuiMode.MODE_VISUALIZATION then
      { w with visualizationModeState_ := app.saveState WINDOW_STATE_VERSION
               renderWindowStateVisualizationMode_ := w.renderWindow_.saveGeometry }
    else w
  let w2 := w1.record [.hide .networkEditorWindow,
    .restoreState w1.networkModeState_ WINDOW_STATE_VERSION]
  let w3 :=
    if !app.restoreState w2.networkModeState_ WINDOW_STATE_VERSION then
      w2.record [.show .processorListTool, .show .propertyListTool]
    else w2
  let e := w3.networkEditorWindow_.restoreGeometry w3.networkEditorWindowState_
  let w4 :=
    if e.1 then ({ w3 with networkEditorWindow_ := e.2 }).record [.show .networkEditorWindow]
    else ({ w3 with networkEditorWindow_ := e.2.showMaximized }).record
      [.showMaximized .networkEditorWindow]
  let w5 := w4.record [.setVisible .networkEditorWidget true]
  let r := w5.renderWindow_.restoreGeometry w5.renderWindowStateNetworkMode_
  let w6 :=
    if r.1 then ({ w5 with renderWindow_ := r.2 }).record [.show .renderWindow]
    else ({ w5 with renderWindow_ := r.2.showNormal }).record [.showNormal .renderWindow]
  w6.record [.setChecked .modeNetworkAction true,
    .propertyListSetState "SINGLE" "DEVELOPER", .setEnabled .processorListAction true]

/-- Embeds `VoreenMainWindow::setGuiMode(guiMode)`. -/
def setGuiMode (app : AppEnv) (w : VoreenMainWindow) (guiMode : GuiMode) : VoreenMainWindow :=
  if w.guiMode_ = guiMode then w
  else
    let w1 := w.record [.setUpdatesEnabled .canvasWidget false, .setVisible .canvasWidget false]
    let w2 :=
      if guiMode = GuiMode.MODE_VISUALIZATION then w1.enterVisualizationMode app
      else if guiMode = GuiMode.MODE_NETWORK then w1.enterNetworkMode app
      else w1
    let w3 := w2.record [.setVisible .canvasWidget true, .setUpdatesEnabled .canvasWidget true]
    { w3 with guiMode_ := guiMode }

end VoreenMainWindow

/-- The call `VoreenWorkspace(0, 0, camera_, mainwindow).loadFromXml(filename)`, whose
code is outside the translated file: from the file name and the main window it
either has no defined result, or gives the main window afterwards together
with the exception it throws or, on success, the value of `ws.readOnly()`. -/
abbrev WorkspaceLoader :=
  String → VoreenMainWindow → Option (Except SerializerException Bool × VoreenMainWindow)

/-- Embeds `VoreenVisualization::openWorkspace(filename, mainwindow)`; the visualization
is `mainwindow->vis_`, so the operation acts on the main window's state. -/
def VoreenVisualization.openWorkspace (loadFromXml : WorkspaceLoader) (w : VoreenMainWindow)
    (filename : String) : Option (Except SerializerException Unit × VoreenMainWindow) :=
  let w0 := { w with vis_ := { w.vis_ with readOnlyWorkspace_ := false } }
  match loadFromXml filename w0 with
  | none => none
  | some (.error e, w1) => some (.error e, w1)
  | some (.ok readOnly, w1) =>
    let v := ({ w1.vis_ with readOnlyWorkspace_ := readOnly }).record
      [.reinitializeCamera, .postMessage .cameraChanged, .postMessage .repaint]
    some (.ok (), { w1 with vis_ := v })

/-- Embeds `VoreenVisualization::openNetwork(filename, mainwindow)`; the visualization is
`mainwindow->vis_`, so the operation acts on the main window's state. -/
def VoreenVisualization.openNetwork (env : Env) (w : VoreenMainWindow) (filename : String) :
    Option (Except SerializerException Unit × VoreenMainWindow) :=
  let w0 := { w with vis_ := w.vis_.record [.readNetworkFromFile filename] }
  match env.readNetworkFromFile filename with
  | .error e => some (.error e, w0)
  | .ok net =>
    let fresh := Heap.alloc w0.vis_.heap net
    let w1 := ({ w0 with vis_ := { w0.vis_ with heap := fresh.2 } }).record [.processEvents]
    match w1.setNetwork (some fresh.1) with
    | none => none
    | some w2 => some (.ok (), w2)

/-- Embeds `VoreenMainWindow::openNetwork(const QString& filename)`. -/
def VoreenMainWindow.openNetwork (env : Env) (w : VoreenMainWindow) (filename : String) :
    Option VoreenMainWindow :=
  let w1 := w.record [.setOverrideCursor]
  match VoreenVisualization.openNetwork env w1 filename with
  | none => none
  | some (.error e, w2) => some (w2.record [.restoreOverrideCursor, .showMessage e.what])
  | some (.ok _, w2) =>
    let w3 := { w2 with currentNetwork_ := filename }
    let w4 := w3.addToRecentFiles w3.currentNetwork_
    let w5 := w4.record [.updateWindowTitle, .restoreOverrideCursor]
    w5.evaluateNetwork env

/-! ## Concrete inputs used by the closed statements below -/

namespace Example

/-- A processor that is a `tgt::EventListener`. -/
def p1 : Processor := { id := 1, isEventListener := true }

/-- Another processor that is a `tgt::EventListener`. -/
def p2 : Processor := { id := 2, isEventListener := true }

/-- A processor without the event-listener capability. -/
def q : Processor := { id := 3, isEventListener := false }

/-- A network holding `p1` and `q`. -/
def net : ProcessorNetwork :=
  { processors := [p1, q], reuseTargets := false, observers := [.visualization], errors := [] }

/-- A visualization holding `net`, with `p1` registered at the canvas. -/
def vis : VoreenVisualization :=
  { heap := [some net]
    processorNetwork_ := some 0
    readOnlyWorkspace_ := false
    evaluatorProcessors := [p1, q]
    eventHandler := [p1]
    trace := [] }

/-- As `vis`, with no listener registered at the canvas yet. -/
def visNoListeners : VoreenVisualization := { vis with eventHandler := [] }

/-- A main window around `vis`. -/
def window : VoreenMainWindow :=
  { vis_ := vis
    currentNetwork_ := "old.vnw"
    currentWorkspace_ := ""
    lastWorkspace_ := ""
    recentFileList := ["old.vnw"]
    windowModified := false
    tools_ := [0]
    ui := [] }

/-- An environment in which everything succeeds (`VRN_OK` taken as 0). -/
def envOk : Env :=
  { VRN_OK := 0
    analyze := fun _ => 0
    initializeGL := fun _ => 0
    canvasSize := (512, 512)
    rebuildAllShadersFromFile := true
    readNetworkFromFile := fun _ => .ok ProcessorNetwork.new
    serializeToXml := fun _ _ => .ok ()
    workspaceSerializeToXml := fun _ _ => .ok ()
    usable := fun _ _ => true
    hasToolWindow := fun _ => true }

/-- As `envOk`, but `analyze()` reports an error. -/
def envAnalyzeFails : Env := { envOk with analyze := fun _ => -1 }

/-- As `envOk`, but `initializeGL()` returns a status other than `VRN_OK`. -/
def envInitFails : Env := { envOk with initializeGL := fun _ => 1 }

/-- As `envOk`, but reading and writing files throws. -/
def envIoFails : Env :=
  { envOk with
    readNetworkFromFile := fun _ => .error { what := "could not read" }
    serializeToXml := fun _ _ => .error { what := "could not write" }
    workspaceSerializeToXml := fun _ _ => .error { what := "could not write" } }

/-- As `envOk`, but rebuilding the shaders fails. -/
def envShadersFail : Env := { envOk with rebuildAllShadersFromFile := false }

/-- The defaults of the application; `saveState` gives no bytes. -/
def app : AppEnv :=
  { networkPath := "networks", workspacePath := "workspaces", volumePath := "volumes"
    saveState := fun _ => [] }

/-- As `window`, with "Load last workspace on startup" switched on and nothing stored in
the settings yet. -/
def windowLoadLast : VoreenMainWindow := { window with loadLastWorkspace_ := true }

/-- As `window`, with the option switched off, over settings in which an entry
`MainWindow/loadLastWorkspace` is already present. -/
def windowStaleSetting : VoreenMainWindow :=
  { window with
    loadLastWorkspace_ := false
    settings_ := [("MainWindow/loadLastWorkspace", .bool true)] }

/-- As `window`, in network mode, with a saved render-window geometry for the
visualization mode. -/
def windowNetworkMode : VoreenMainWindow :=
  { window with
    guiMode_ := GuiMode.MODE_NETWORK
    renderWindowStateVisualizationMode_ := window.renderWindow_.saveGeometry }

/-- As `window`, holding a network with two structural errors. -/
def windowWithErrors : VoreenMainWindow :=
  { window with vis_ := { vis with heap := [some { net with errors := ["e1", "e2"] }] } }

/-- A workspace loader that throws for every file. -/
def loaderFails : WorkspaceLoader :=
  fun _ w => some (.error { what := "could not open" }, w)

/-- A workspace loader that succeeds, leaves the window as it is and reports a
workspace that is not read-only. -/
def loaderOk : WorkspaceLoader := fun _ w => some (.ok false, w)

end Example

/-! ## Auxiliary lemmas -/

theorem collectStep_foldl_range (net : ProcessorNetwork) (k : Nat) :
    (List.range k).foldl (collectStep net) [] = net.processors.take k := by
  induction k with
  | zero => simp
  | succ k ih =>
    rw [List.range_succ, List.foldl_append, ih, List.take_succ]
    cases h : net.processors[k]? <;>
      simp [collectStep, ProcessorNetwork.getProcessors, h]

theorem collectProcessors_eq (net : ProcessorNetwork) :
    collectProcessors net = net.processors := by
  unfold collectProcessors ProcessorNetwork.getNumProcessors
  rw [collectStep_foldl_range]
  simp

theorem updateTool_eq (env : Env) (w : VoreenMainWindow) (tool : Nat) :
    ∃ cs, VoreenMainWindow.updateTool env w tool = { w with ui := w.ui ++ cs } := by
  unfold VoreenMainWindow.updateTool
  by_cases h : (env.hasToolWindow tool && !env.usable tool w.vis_.evaluatorProcessors) = true
  · exact ⟨[.actionSetVisible tool (env.usable tool w.vis_.evaluatorProcessors),
      .toolWindowSetVisible tool false], by simp [h, VoreenMainWindow.record]⟩
  · exact ⟨[.actionSetVisible tool (env.usable tool w.vis_.evaluatorProcessors)],
      by simp [h, VoreenMainWindow.record]⟩

theorem foldl_updateTool_eq (env : Env) (tools : List Nat) (w : VoreenMainWindow) :
    ∃ cs, tools.foldl (VoreenMainWindow.updateTool env) w = { w with ui := w.ui ++ cs } := by
  induction tools generalizing w with
  | nil => exact ⟨[], by simp⟩
  | cons t rest ih =>
    obtain ⟨cs1, h1⟩ := updateTool_eq env w t
    obtain ⟨cs2, h2⟩ := ih { w with ui := w.ui ++ cs1 }
    exact ⟨cs1 ++ cs2, by simp [List.foldl_cons, h1, h2, List.append_assoc]⟩

theorem Heap.lookup_store_self (h : Heap) (a : Nat) (old net : ProcessorNetwork)
    (hlive : h.lookup a = some old) : (h.store a net).lookup a = some net := by
  unfold Heap.lookup Heap.store at *
  have hlt : a < h.length := by
    by_contra hge
    simp [List.getElem?_eq_none (Nat.le_of_not_lt hge)] at hlive
  simp [hlt]

theorem Heap.lookup_set_none (h : Heap) (a : Nat) : Heap.lookup (h.set a none) a = none := by
  unfold Heap.lookup
  by_cases hlt : a < h.length
  · simp [hlt]
  · have hnone : (h.set a none)[a]? = none :=
      List.getElem?_eq_none (by simpa using Nat.le_of_not_lt hlt)
    simp [hnone]

theorem Heap.delete_live (h : Heap) (a : Nat) (net : ProcessorNetwork)
    (hlive : h.lookup a = some net) : Heap.delete h (some a) = some (h.set a none) := by
  simp [Heap.delete, hlive]

theorem removeListener_eq_filter (chain : List Processor) (l : Processor) :
    EventHandler.removeListener chain l = chain.filter (fun x => x ≠ l) := by
  induction chain with
  | nil => rfl
  | cons x rest ih =>
    by_cases h : x = l
    · simp [EventHandler.removeListener, h, ih]
    · simp [EventHandler.removeListener, h, ih]

theorem removeEventListeners_eq_filter (procs chain : List Processor) :
    NetworkSerializer.removeEventListenersFromHandler chain procs =
      chain.filter (fun x => ∀ p ∈ procs, p.isEventListener = true → x ≠ p) := by
  unfold NetworkSerializer.removeEventListenersFromHandler
  induction procs generalizing chain with
  | nil => simp
  | cons p rest ih =>
    rw [List.foldl_cons, ih]
    by_cases hp : p.isEventListener = true
    · simp only [hp, if_true, removeListener_eq_filter, List.filter_filter]
      apply List.filter_congr
      intro x _
      simp only [List.mem_cons, forall_eq_or_imp, hp, true_implies, ne_eq, decide_not,
        Bool.decide_and, Bool.and_comm]
    · simp only [hp, Bool.false_eq_true, if_false]
      apply List.filter_congr
      intro x _
      simp [hp]

theorem connectEventListeners_nil (chain : List Processor) (front : Bool) :
    NetworkSerializer.connectEventListenersToHandler chain [] front = chain := rfl

theorem Heap.lookup_alloc (h : Heap) (net : ProcessorNetwork) :
    Heap.lookup (Heap.alloc h net).2 (Heap.alloc h net).1 = some net := by
  simp [Heap.lookup, Heap.alloc]

theorem Heap.lookup_alloc_old (h : Heap) (net : ProcessorNetwork) (a : Nat)
    (ha : a < h.length) : Heap.lookup (Heap.alloc h net).2 a = Heap.lookup h a := by
  simp [Heap.lookup, Heap.alloc, List.getElem?_append_left ha]

theorem Heap.lookup_lt (h : Heap) (a : Nat) (net : ProcessorNetwork)
    (hlive : h.lookup a = some net) : a < h.length := by
  unfold Heap.lookup at hlive
  by_contra hge
  simp [List.getElem?_eq_none (Nat.le_of_not_lt hge)] at hlive

theorem restoreGeometry_fst (w : VoreenMdiSubWindow) (data : QByteArray) :
    (w.restoreGeometry data).1 =
      (decide (4 ≤ data.length) &&
        decide ((QDataStream.readUInt32 data).1 = VoreenMdiSubWindow.magicNumber) &&
        decide ((QDataStream.readUInt16 (QDataStream.readUInt32 data).2).1 = 1)) := by
  unfold VoreenMdiSubWindow.restoreGeometry
  dsimp only
  split_ifs <;> simp_all

theorem readUInt32_writeUInt32_append (v : Nat) (rest : QByteArray) :
    (QDataStream.readUInt32 (QDataStream.writeUInt32 v ++ rest)).2 = rest := rfl

theorem readUInt16_writeUInt16_append (v : Nat) (rest : QByteArray) :
    (QDataStream.readUInt16 (QDataStream.writeUInt16 v ++ rest)).2 = rest := rfl

theorem readRect_writeRect_append (r : QRect) (rest : QByteArray) :
    (QDataStream.readRect (QDataStream.writeRect r ++ rest)).2 = rest := rfl

theorem saveGeometry_length (w : VoreenMdiSubWindow) : w.saveGeometry.length = 41 := rfl

theorem saveGeometry_header (w : VoreenMdiSubWindow) :
    (QDataStream.readUInt32 w.saveGeometry).1 = VoreenMdiSubWindow.magicNumber ∧
    (QDataStream.readUInt16 (QDataStream.readUInt32 w.saveGeometry).2).1 = 1 := by
  constructor <;> rfl

theorem saveGeometry_maximized_byte (w : VoreenMdiSubWindow) :
    (QDataStream.readUInt8 (QDataStream.readRect (QDataStream.readRect
      (QDataStream.readUInt16 (QDataStream.readUInt16
        (QDataStream.readUInt32 w.saveGeometry).2).2).2).2).2).1
      = if w.windowState.maximized then 2 else 0 := by
  cases h : w.windowState.maximized <;>
    simp [VoreenMdiSubWindow.saveGeometry, VoreenMdiSubWindow.maximizedByte, h,
      QDataStream.writeUInt32, QDataStream.writeUInt16, QDataStream.writeUInt8,
      QDataStream.writeRect, QDataStream.writeInt32, QDataStream.readUInt32,
      QDataStream.readUInt16, QDataStream.readUInt8, QDataStream.readRect,
      QDataStream.readInt32, QDataStream.byte]

theorem removeLastLoop_eq_take (fuel : Nat) (files : List String)
    (hfuel : files.length ≤ fuel + MAX_RECENT_FILES) :
    VoreenMainWindow.removeLastLoop fuel files = files.take MAX_RECENT_FILES := by
  induction fuel generalizing files with
  | zero =>
    simp only [VoreenMainWindow.removeLastLoop]
    exact (List.take_of_length_le (by omega)).symm
  | succ fuel ih =>
    simp only [VoreenMainWindow.removeLastLoop]
    by_cases hlen : files.length > MAX_RECENT_FILES
    · rw [if_pos hlen, ih files.dropLast (by simp only [List.length_dropLast]; omega)]
      rw [List.dropLast_eq_take, List.take_take]
      congr 1
      omega
    · rw [if_neg hlen]
      exact (List.take_of_length_le (by omega)).symm

theorem addToRecentFiles_list (w : VoreenMainWindow) (f : String) :
    (w.addToRecentFiles f).recentFileList =
      (f :: (w.recentFileList.filter (fun x => x ≠ "")).filter
        (fun x => x ≠ f)).take MAX_RECENT_FILES := by
  simp only [VoreenMainWindow.addToRecentFiles, VoreenMainWindow.record]
  exact removeLastLoop_eq_take _ _ (by omega)

theorem evaluateNetwork_eq (env : Env) (s : VoreenVisualization) (ps : List Processor)
    (hps : s.currentProcessors = some ps) :
    s.evaluateNetwork env =
      some (if env.analyze ps ≥ 0 then
          (if env.initializeGL ps ≠ env.VRN_OK then
            (false, { s with
              evaluatorProcessors := ps
              trace := s.trace ++ [.setVolumeSetContainer, .setProcessors ps,
                .postMessage .updateVolumeSetContainer, .analyze, .getGLFocus,
                .setSize env.canvasSize, .initializeGL] })
          else
            (true, { s with
              evaluatorProcessors := ps
              trace := s.trace ++ [.setVolumeSetContainer, .setProcessors ps,
                .postMessage .updateVolumeSetContainer, .analyze, .getGLFocus,
                .setSize env.canvasSize, .initializeGL, .repaint] }))
        else
          (true, { s with
            evaluatorProcessors := ps
            trace := s.trace ++ [.setVolumeSetContainer, .setProcessors ps,
              .postMessage .updateVolumeSetContainer, .analyze] })) := by
  simp only [VoreenVisualization.evaluateNetwork, hps, VoreenVisualization.record]
  split_ifs <;> simp

theorem Heap.lookup_set_ne (h : Heap) (a b : Nat) (x : Option ProcessorNetwork)
    (hab : a ≠ b) : Heap.lookup (h.set a x) b = Heap.lookup h b := by
  simp [Heap.lookup, List.getElem?_set_ne hab]

/-- What `setNetwork` does for a network other than the current one: the
visualization ends up registered as an observer of the network it then holds. -/
theorem setNetwork_registers_observer (s : VoreenVisualization) (a b : Nat)
    (old net : ProcessorNetwork) (hp : s.processorNetwork_ = some a)
    (hold : s.heap.lookup a = some old) (hab : b ≠ a) (hnet : s.heap.lookup b = some net) :
    ∃ s' net', s.setNetwork (some b) = some s' ∧ s'.processorNetwork_ = some b ∧
      s'.network = some net' ∧ Observer.visualization ∈ net'.observers := by
  have hne : ¬ (some b = some a) := by simpa using hab
  have h1 := Heap.lookup_store_self s.heap a old (old.removeObserver .visualization) hold
  have hdel := Heap.delete_live _ a _ h1
  have h2 : Heap.lookup ((s.heap.store a (old.removeObserver .visualization)).set a none) b
      = some net := by
    rw [Heap.lookup_set_ne _ a b _ (Ne.symm hab)]
    unfold Heap.store
    rw [Heap.lookup_set_ne _ a b _ (Ne.symm hab)]
    exact hnet
  have h3 := Heap.lookup_store_self _ b net (net.addObserver .visualization) h2
  simp only [VoreenVisualization.setNetwork, hp, hold, ne_eq, hne, not_false_eq_true,
    if_true, Option.bind_eq_bind, Option.some_bind, Option.pure_def, hdel, h2,
    VoreenVisualization.record, h3]
  refine ⟨_, net.addObserver .visualization, rfl, rfl, ?_, by simp [ProcessorNetwork.addObserver]⟩
  simp only [VoreenVisualization.network]
  exact h3

theorem evaluateNetwork_trace (env : Env) (s : VoreenVisualization) (ps : List Processor)
    (hps : s.currentProcessors = some ps) :
    ∃ r s' rest, s.evaluateNetwork env = some (r, s') ∧
      s'.evaluatorProcessors = ps ∧
      s'.trace = s.trace ++ ([.setVolumeSetContainer, .setProcessors ps,
        .postMessage .updateVolumeSetContainer, .analyze] ++ rest) ∧
      (rest = [] ∨ rest = [.getGLFocus, .setSize env.canvasSize, .initializeGL] ∨
        rest = [.getGLFocus, .setSize env.canvasSize, .initializeGL, .repaint]) := by
  rw [evaluateNetwork_eq env s ps hps]
  by_cases ha : env.analyze ps ≥ 0
  · by_cases hi : env.initializeGL ps ≠ env.VRN_OK
    · rw [if_pos ha, if_pos hi]
      exact ⟨_, _, [.getGLFocus, .setSize env.canvasSize, .initializeGL], rfl, rfl,
        by simp, Or.inr (Or.inl rfl)⟩
    · rw [if_pos ha, if_neg hi]
      exact ⟨_, _, [.getGLFocus, .setSize env.canvasSize, .initializeGL, .repaint], rfl, rfl,
        by simp, Or.inr (Or.inr rfl)⟩
  · rw [if_neg ha]
    exact ⟨_, _, [], rfl, rfl, by simp, Or.inl rfl⟩

theorem currentProcessors_of_network (s : VoreenVisualization) (net : ProcessorNetwork)
    (hnet : s.network = some net) : s.currentProcessors = some net.processors := by
  unfold VoreenVisualization.network at hnet
  unfold VoreenVisualization.currentProcessors
  cases hp : s.processorNetwork_ with
  | none => simp [hp] at hnet
  | some a =>
    simp only [hp] at hnet
    simp [hnet, collectProcessors_eq]

theorem currentProcessors_of_null (s : VoreenVisualization)
    (hnull : s.processorNetwork_ = none) : s.currentProcessors = some [] := by
  simp [VoreenVisualization.currentProcessors, hnull]

theorem foldl_append_eq_join (f : String → String) (errors : List String) (init : String) :
    errors.foldl (fun acc e => acc ++ f e) init = init ++ String.join (errors.map f) := by
  induction errors generalizing init with
  | nil => simp [String.join]
  | cons e rest ih =>
    rw [List.foldl_cons, ih, List.map_cons]
    have hjoin : ∀ (l : List String) (a : String),
        List.foldl (fun r s => r ++ s) a l = a ++ String.join l := by
      intro l
      induction l with
      | nil => intro a; simp [String.join]
      | cons x xs ihx =>
        intro a
        simp only [String.join, List.foldl_cons] at ihx ⊢
        rw [ihx (a ++ x), ihx ("" ++ x), String.empty_append, String.append_assoc]
    simp only [String.join, List.foldl_cons]
    rw [hjoin, hjoin]
    simp [String.append_assoc]

theorem networkErrorsMessage_eq (errors : List String) :
    VoreenMainWindow.networkErrorsMessage errors =
      "There were " ++ toString errors.length ++ " errors loading the network:\n<ul>"
        ++ String.join (errors.map (fun e => "<li>" ++ e ++ "</li>\n")) ++ "\n</ul>" := by
  unfold VoreenMainWindow.networkErrorsMessage
  simp only [foldl_append_eq_join (fun e => "<li>" ++ e ++ "</li>\n") errors "",
    String.empty_append]

theorem networkErrorsMessage_example :
    VoreenMainWindow.networkErrorsMessage ["e1", "e2"] =
      "There were 2 errors loading the network:\n<ul><li>e1</li>\n<li>e2</li>\n\n</ul>" := by
  decide

theorem setGuiMode_switch_example :
    (Example.windowNetworkMode.setGuiMode Example.app GuiMode.MODE_VISUALIZATION).guiMode_
      = GuiMode.MODE_VISUALIZATION ∧
    (Example.windowNetworkMode.setGuiMode Example.app GuiMode.MODE_VISUALIZATION).ui
      = [.setUpdatesEnabled .canvasWidget false, .setVisible .canvasWidget false,
         .hide .networkEditorWindow, .setVisible .networkEditorWidget false,
         .hide .renderWindow, .restoreState [] 10,
         .hide .processorListTool, .show .propertyListTool,
         .show .renderWindow,
         .setChecked .modeVisualizationAction true,
         .propertyListSetState "LIST" "USER", .setEnabled .processorListAction false,
         .setVisible .canvasWidget true, .setUpdatesEnabled .canvasWidget true] ∧
    (Example.windowNetworkMode.setGuiMode Example.app
        GuiMode.MODE_VISUALIZATION).renderWindowStateNetworkMode_
      = Example.window.renderWindow_.saveGeometry := by
  decide

/-! ## Claims about `evaluateNetwork` -/

/-- C1: whenever `analyze()` reports an error (a negative value), the call of
`VoreenVisualization::evaluateNetwork` returns and triggers no run: the calls
it makes are exactly the hand-over of the processors and `analyze()`, so
neither the evaluator's `setSize`, nor its `initializeGL`, nor the canvas
repaint is among them. -/
theorem evaluateNetwork_analyze_error_no_run (env : Env) (s : VoreenVisualization)
    (ps : List Processor) (hps : s.currentProcessors = some ps)
    (herr : env.analyze ps < 0) :
    ∃ r s' calls, s.evaluateNetwork env = some (r, s') ∧
      s'.trace = s.trace ++ calls ∧
      Call.analyze ∈ calls ∧
      (∀ size, Call.setSize size ∉ calls) ∧
      Call.initializeGL ∉ calls ∧
      Call.repaint ∉ calls := by
  have hneg : ¬ (env.analyze ps ≥ 0) := by omega
  refine ⟨true,
    (({ s with evaluatorProcessors := ps }).record
      [.setVolumeSetContainer, .setProcessors ps,
       .postMessage .updateVolumeSetContainer]).record [.analyze],
    [.setVolumeSetContainer, .setProcessors ps,
      .postMessage .updateVolumeSetContainer, .analyze], ?_, ?_, ?_, ?_, ?_, ?_⟩
  · simp only [VoreenVisualization.evaluateNetwork, hps, hneg, if_false]
  · simp [VoreenVisualization.record]
  · simp
  · intro size; simp
  · simp
  · simp

/-- Witness for C1: the example visualization with a failing analysis. -/
theorem evaluateNetwork_analyze_error_no_run_witness :
    ∃ r s' calls, Example.vis.evaluateNetwork Example.envAnalyzeFails = some (r, s') ∧
      s'.trace = Example.vis.trace ++ calls ∧
      Call.analyze ∈ calls ∧
      (∀ size, Call.setSize size ∉ calls) ∧
      Call.initializeGL ∉ calls ∧
      Call.repaint ∉ calls :=
  evaluateNetwork_analyze_error_no_run Example.envAnalyzeFails Example.vis
    [Example.p1, Example.q] (by decide) (by decide)

/-- C2: when `analyze()` succeeds but `initializeGL()` returns a status other
than `Processor::VRN_OK`, `VoreenVisualization::evaluateNetwork` halts the pass
and returns false without invoking the canvas repaint, and
`VoreenMainWindow::evaluateNetwork` then shows the initialization-failure
error dialog. -/
theorem evaluateNetwork_init_failure_reported (env : Env) (w : VoreenMainWindow)
    (ps : List Processor) (hps : w.vis_.currentProcessors = some ps)
    (hok : env.analyze ps ≥ 0) (hinit : env.initializeGL ps ≠ env.VRN_OK) :
    ∃ v calls, w.vis_.evaluateNetwork env = some (false, v) ∧
      v.trace = w.vis_.trace ++ calls ∧
      Call.initializeGL ∈ calls ∧
      Call.repaint ∉ calls ∧
      ∃ w' shown, w.evaluateNetwork env = some w' ∧
        w'.vis_ = v ∧
        w'.ui = w.ui ++ shown ∧
        UiCall.critical "Error" VoreenMainWindow.initializationFailedText ∈ shown := by
  have hv : w.vis_.evaluateNetwork env = some (false,
      ((({ w.vis_ with evaluatorProcessors := ps }).record
        [.setVolumeSetContainer, .setProcessors ps,
         .postMessage .updateVolumeSetContainer]).record [.analyze]).record
        [.getGLFocus, .setSize env.canvasSize, .initializeGL]) := by
    simp only [VoreenVisualization.evaluateNetwork, hps, hok, hinit, if_true, ne_eq,
      not_false_eq_true]
  refine ⟨_, [.setVolumeSetContainer, .setProcessors ps,
    .postMessage .updateVolumeSetContainer, .analyze, .getGLFocus,
    .setSize env.canvasSize, .initializeGL], hv, ?_, ?_, ?_, ?_⟩
  · simp [VoreenVisualization.record]
  · simp
  · simp
  · simp only [VoreenMainWindow.evaluateNetwork, VoreenMainWindow.record, hv,
      Option.bind_eq_bind, Option.some_bind, Bool.not_false, if_true, Option.pure_def]
    obtain ⟨cs, hcs⟩ := foldl_updateTool_eq env w.tools_
      { w with
        vis_ := ((({ w.vis_ with evaluatorProcessors := ps }).record
          [.setVolumeSetContainer, .setProcessors ps,
           .postMessage .updateVolumeSetContainer]).record [.analyze]).record
          [.getGLFocus, .setSize env.canvasSize, .initializeGL]
        ui := (w.ui ++ [.setOverrideCursor]) ++
          [.restoreOverrideCursor, .consoleShow, .processEvents,
           .critical "Error" VoreenMainWindow.initializationFailedText] }
    refine ⟨_, [.setOverrideCursor, .restoreOverrideCursor, .consoleShow, .processEvents,
      .critical "Error" VoreenMainWindow.initializationFailedText] ++ cs ++
      [.postMessage .evaluatorUpdated, .restoreOverrideCursor], rfl, ?_, ?_, ?_⟩
    · simp only [VoreenVisualization.record] at hcs ⊢
      rw [hcs]
    · simp only [VoreenVisualization.record] at hcs ⊢
      rw [hcs]
      simp [List.append_assoc]
    · simp

/-- Witness for C2: the example window with a failing GL initialisation. -/
theorem evaluateNetwork_init_failure_reported_witness :
    ∃ v calls, Example.window.vis_.evaluateNetwork Example.envInitFails = some (false, v) ∧
      v.trace = Example.window.vis_.trace ++ calls ∧
      Call.initializeGL ∈ calls ∧
      Call.repaint ∉ calls ∧
      ∃ w' shown, Example.window.evaluateNetwork Example.envInitFails = some w' ∧
        w'.vis_ = v ∧
        w'.ui = Example.window.ui ++ shown ∧
        UiCall.critical "Error" VoreenMainWindow.initializationFailedText ∈ shown :=
  evaluateNetwork_init_failure_reported Example.envInitFails Example.window
    [Example.p1, Example.q] (by decide) (by decide) (by decide)

/-! ## Claims about loading and saving -/

/-- C3 (what the code does instead): when the serializer throws inside
`VoreenVisualization::saveNetwork` on a visualization holding a live network,
the exception propagates, and at that point the catch block has deleted
`*processorNetwork_` while the member still holds the old address: the
visualization no longer holds a valid network. -/
theorem saveNetwork_failure_destroys_network (env : Env) (s : VoreenVisualization)
    (filename : String) (b : Bool) (net : ProcessorNetwork) (e : SerializerException)
    (hnet : s.network = some net)
    (hfail : env.serializeToXml (net.setReuseTargets b) filename = .error e) :
    ∃ s', s.saveNetwork env filename b = some (.error e, s') ∧
      s'.processorNetwork_ = s.processorNetwork_ ∧
      s'.network = none := by
  unfold VoreenVisualization.network at hnet
  cases hp : s.processorNetwork_ with
  | none => simp [hp] at hnet
  | some a =>
    simp only [hp] at hnet
    have h1 := Heap.lookup_store_self s.heap a net (net.setReuseTargets b) hnet
    have h2 := Heap.delete_live (s.heap.store a (net.setReuseTargets b)) a _ h1
    simp only [VoreenVisualization.saveNetwork, hp, hnet, hfail,
      VoreenVisualization.record, h2]
    refine ⟨_, rfl, rfl, ?_⟩
    simp only [VoreenVisualization.network]
    exact Heap.lookup_set_none _ a

/-- Witness for C3: the example visualization holds the live network
`Example.net`; saving it while the serializer throws lets the exception escape
and leaves `processorNetwork_` pointing at the deleted network. -/
theorem saveNetwork_failure_destroys_network_witness :
    Example.vis.network = some Example.net ∧
    ∃ s', Example.vis.saveNetwork Example.envIoFails "out.vnw" true
        = some (.error { what := "could not write" }, s') ∧
      s'.processorNetwork_ = Example.vis.processorNetwork_ ∧
      s'.network = none :=
  ⟨rfl, saveNetwork_failure_destroys_network Example.envIoFails Example.vis "out.vnw" true
    Example.net { what := "could not write" } rfl rfl⟩

/-- C4: when `NetworkSerializer::readNetworkFromFile` throws for `filename`,
`VoreenMainWindow::openNetwork(filename)` returns having only attempted the
read and shown the error: the free store and `processorNetwork_`, the
evaluator's processors, the listener chain, `currentNetwork_` and the stored
recent-file list are unchanged, and no call of `evaluateNetwork` appears in
either trace. -/
theorem openNetwork_read_failure_keeps_state (env : Env) (w : VoreenMainWindow)
    (filename : String) (e : SerializerException)
    (hfail : env.readNetworkFromFile filename = .error e) :
    ∃ w', w.openNetwork env filename = some w' ∧
      w'.vis_.heap = w.vis_.heap ∧
      w'.vis_.processorNetwork_ = w.vis_.processorNetwork_ ∧
      w'.vis_.network = w.vis_.network ∧
      w'.vis_.evaluatorProcessors = w.vis_.evaluatorProcessors ∧
      w'.vis_.eventHandler = w.vis_.eventHandler ∧
      w'.currentNetwork_ = w.currentNetwork_ ∧
      w'.recentFileList = w.recentFileList ∧
      w'.vis_.trace = w.vis_.trace ++ [.readNetworkFromFile filename] ∧
      w'.ui = w.ui ++ [.setOverrideCursor, .restoreOverrideCursor, .showMessage e.what] := by
  simp only [VoreenMainWindow.openNetwork, VoreenVisualization.openNetwork, hfail]
  refine ⟨_, rfl, ?_⟩
  simp [VoreenMainWindow.record, VoreenVisualization.record, VoreenVisualization.network]

/-- Witness for C4: the example window and a file that cannot be read. -/
theorem openNetwork_read_failure_keeps_state_witness :
    ∃ w', Example.window.openNetwork Example.envIoFails "missing.vnw" = some w' ∧
      w'.vis_.heap = Example.window.vis_.heap ∧
      w'.vis_.processorNetwork_ = Example.window.vis_.processorNetwork_ ∧
      w'.vis_.network = Example.window.vis_.network ∧
      w'.vis_.evaluatorProcessors = Example.window.vis_.evaluatorProcessors ∧
      w'.vis_.eventHandler = Example.window.vis_.eventHandler ∧
      w'.currentNetwork_ = Example.window.currentNetwork_ ∧
      w'.recentFileList = Example.window.recentFileList ∧
      w'.vis_.trace = Example.window.vis_.trace ++ [.readNetworkFromFile "missing.vnw"] ∧
      w'.ui = Example.window.ui ++
        [.setOverrideCursor, .restoreOverrideCursor, .showMessage "could not read"] :=
  openNetwork_read_failure_keeps_state Example.envIoFails Example.window "missing.vnw"
    { what := "could not read" } rfl

/-! ## Claims about tearing the network down -/

/-- C5: `VoreenVisualization::clearScene()` on a visualization that holds a
network tears it down and rebuilds from scratch: the call returns, the
evaluator's processor list is empty, no event-listener processor of the
previous network remains in the canvas event handler's chain (nothing else is
added to or reordered in the chain), the previous network object is deleted,
and `processorNetwork_` points to a freshly allocated network with zero
processors. -/
theorem clearScene_rebuilds_from_scratch (s : VoreenVisualization) (a : Nat)
    (net : ProcessorNetwork) (hp : s.processorNetwork_ = some a)
    (hnet : s.heap.lookup a = some net) :
    ∃ s', s.clearScene = some s' ∧
      s'.evaluatorProcessors = [] ∧
      (∀ p ∈ net.processors, p.isEventListener = true → p ∉ s'.eventHandler) ∧
      s'.eventHandler.Sublist s.eventHandler ∧
      s'.heap.lookup a = none ∧
      s'.processorNetwork_ = some s.heap.length ∧
      s'.network = some ProcessorNetwork.new ∧
      ProcessorNetwork.new.getNumProcessors = 0 := by
  have hlt := Heap.lookup_lt s.heap a net hnet
  have hdel := Heap.delete_live s.heap a net hnet
  have hnew := Heap.lookup_alloc (s.heap.set a none) ProcessorNetwork.new
  have hold := Heap.lookup_alloc_old (s.heap.set a none) ProcessorNetwork.new a
    (by simpa using hlt)
  rw [Heap.lookup_set_none] at hold
  have hcoll : ProcessorNetwork.new.processors = [] := rfl
  simp only [VoreenVisualization.clearScene, VoreenVisualization.setNetwork, hp, hnet,
    VoreenVisualization.record, Option.bind_eq_bind, Option.some_bind, Option.pure_def,
    hdel, ne_eq, not_true_eq_false, if_false, hnew, hcoll,
    connectEventListeners_nil, collectProcessors_eq, removeEventListeners_eq_filter]
  refine ⟨_, rfl, rfl, ?_, ?_, hold, ?_, ?_, rfl⟩
  · intro p hpmem hlis hin
    simp only [List.mem_filter, decide_eq_true_eq] at hin
    exact hin.2 p hpmem hlis rfl
  · exact List.filter_sublist _
  · simp [Heap.alloc]
  · simp only [VoreenVisualization.network]
    exact hnew

/-- Witness for C5: the example visualization, whose network holds the listener `p1`. -/
theorem clearScene_rebuilds_from_scratch_witness :
    ∃ s', Example.vis.clearScene = some s' ∧
      s'.evaluatorProcessors = [] ∧
      (∀ p ∈ Example.net.processors, p.isEventListener = true → p ∉ s'.eventHandler) ∧
      s'.eventHandler.Sublist Example.vis.eventHandler ∧
      s'.heap.lookup 0 = none ∧
      s'.processorNetwork_ = some Example.vis.heap.length ∧
      s'.network = some ProcessorNetwork.new ∧
      ProcessorNetwork.new.getNumProcessors = 0 :=
  clearScene_rebuilds_from_scratch Example.vis 0 Example.net rfl rfl

/-! ## Claims about the observer callbacks and the listener chain -/

/-- C6 (as stated, refuted): registering the listeners `p1` and then `p2` on a
visualization whose canvas has no listener yet gives the chain `[p2, p1]`; the earlier-registered `p1` is
not nearer the front than `p2`, and an event that `p2` consumes never reaches
`p1`. -/
theorem processorAdded_registration_order_counterexample :
    Example.p1.isEventListener = true ∧ Example.p2.isEventListener = true ∧
    ((Example.visNoListeners.processorAdded Example.p1).processorAdded
      Example.p2).eventHandler = [Example.p2, Example.p1] ∧
    ¬ EventHandler.nearerFront
      ((Example.visNoListeners.processorAdded Example.p1).processorAdded
        Example.p2).eventHandler Example.p1 Example.p2 ∧
    EventHandler.broadcast (fun _ => true)
      ((Example.visNoListeners.processorAdded Example.p1).processorAdded
        Example.p2).eventHandler = [Example.p2] := by
  refine ⟨rfl, rfl, rfl, ?_, rfl⟩
  intro h
  have h2 := h.2
  revert h2
  decide

/-- C6 (amended): for two distinct processors with the event-listener
capability registered one after the other through
`VoreenVisualization::processorAdded`, the chain holds them in reverse
registration order: the later-registered processor is put at the front,
directly before the earlier-registered one, so it is nearer the front, is the
first to receive an event, and when it consumes the event the earlier one does
not receive it. -/
theorem processorAdded_reverse_registration_order (s : VoreenVisualization)
    (a b : Processor) (ha : a.isEventListener = true) (hb : b.isEventListener = true)
    (hne : a ≠ b) :
    ((s.processorAdded a).processorAdded b).eventHandler = b :: a :: s.eventHandler ∧
    EventHandler.nearerFront ((s.processorAdded a).processorAdded b).eventHandler b a ∧
    (∀ consumes, (EventHandler.broadcast consumes
      ((s.processorAdded a).processorAdded b).eventHandler).head? = some b) ∧
    (∀ consumes, consumes b = true → a ∉ EventHandler.broadcast consumes
      ((s.processorAdded a).processorAdded b).eventHandler) := by
  have hchain : ((s.processorAdded a).processorAdded b).eventHandler
      = b :: a :: s.eventHandler := by
    simp [VoreenVisualization.processorAdded, VoreenVisualization.record, ha, hb,
      EventHandler.addListenerToFront]
  rw [hchain]
  refine ⟨rfl, ⟨by simp, ?_⟩, ?_, ?_⟩
  · have hab : ¬ (b = a) := fun h => hne h.symm
    simp [List.indexOf_cons, hab]
  · intro consumes
    by_cases hc : consumes b = true <;> simp [EventHandler.broadcast, hc]
  · intro consumes hc
    simp [EventHandler.broadcast, hc, hne]

/-- Witness for the amended C6: `p1` then `p2` on the example visualization. -/
theorem processorAdded_reverse_registration_order_witness :
    ((Example.vis.processorAdded Example.p1).processorAdded Example.p2).eventHandler
      = Example.p2 :: Example.p1 :: Example.vis.eventHandler ∧
    EventHandler.nearerFront
      ((Example.vis.processorAdded Example.p1).processorAdded Example.p2).eventHandler
      Example.p2 Example.p1 ∧
    (∀ consumes, (EventHandler.broadcast consumes
      ((Example.vis.processorAdded Example.p1).processorAdded
        Example.p2).eventHandler).head? = some Example.p2) ∧
    (∀ consumes, consumes Example.p2 = true → Example.p1 ∉ EventHandler.broadcast consumes
      ((Example.vis.processorAdded Example.p1).processorAdded Example.p2).eventHandler) :=
  processorAdded_reverse_registration_order Example.vis Example.p1 Example.p2 rfl rfl
    (by decide)

/-- C7: for a processor `p` with the event-listener capability, after
`VoreenVisualization::processorRemoved(p)` the processor is no longer a member
of the canvas event handler's chain, and the chain is the previous one with
the entries for `p` taken out: all other listeners remain, in their previous
relative order. -/
theorem processorRemoved_unregisters_listener (s : VoreenVisualization) (p : Processor)
    (hp : p.isEventListener = true) :
    p ∉ (s.processorRemoved p).eventHandler ∧
    (s.processorRemoved p).eventHandler = s.eventHandler.filter (fun x => x ≠ p) := by
  have hchain : (s.processorRemoved p).eventHandler
      = s.eventHandler.filter (fun x => x ≠ p) := by
    simp [VoreenVisualization.processorRemoved, VoreenVisualization.record, hp,
      removeListener_eq_filter]
  rw [hchain]
  exact ⟨by simp [List.mem_filter], rfl⟩

/-- Witness for C7: removing `p1` from the chain `[p2, p1, p2]`. -/
theorem processorRemoved_unregisters_listener_witness :
    Example.p1 ∉ (VoreenVisualization.processorRemoved
      { Example.vis with eventHandler := [Example.p2, Example.p1, Example.p2] }
      Example.p1).eventHandler ∧
    (VoreenVisualization.processorRemoved
      { Example.vis with eventHandler := [Example.p2, Example.p1, Example.p2] }
      Example.p1).eventHandler
      = [Example.p2, Example.p1, Example.p2].filter (fun x => x ≠ Example.p1) :=
  processorRemoved_unregisters_listener
    { Example.vis with eventHandler := [Example.p2, Example.p1, Example.p2] } Example.p1 rfl

/-- C8: `VoreenVisualization::processorAdded(p)` changes the canvas event
handler's listener chain if and only if `p` has the event-listener capability;
with the capability `p` is put in front of the previous chain, without it the
chain is exactly what it was. -/
theorem processorAdded_changes_chain_iff (s : VoreenVisualization) (p : Processor) :
    ((s.processorAdded p).eventHandler ≠ s.eventHandler ↔ p.isEventListener = true) ∧
    (s.processorAdded p).eventHandler
      = (if p.isEventListener then p :: s.eventHandler else s.eventHandler) := by
  have hchain : (s.processorAdded p).eventHandler
      = (if p.isEventListener then p :: s.eventHandler else s.eventHandler) := by
    by_cases hp : p.isEventListener = true <;>
      simp [VoreenVisualization.processorAdded, VoreenVisualization.record, hp,
        EventHandler.addListenerToFront]
  refine ⟨?_, hchain⟩
  rw [hchain]
  by_cases hp : p.isEventListener = true
  · simp only [hp, if_true, ne_eq, iff_true]
    intro h
    have hlen := congrArg List.length h
    simp at hlen
  · simp [hp]

/-! ## Claims about shader rebuilding and the target-reuse flag -/

/-- C9: `VoreenVisualization::rebuildShaders` returns true exactly when
`ShdrMgr.rebuildAllShadersFromFile()` succeeds.  When the rebuild fails, false
is returned, the only call made is the rebuild itself (the evaluator's
rendering is not invalidated and the canvas is not updated), the free store,
`processorNetwork_` and the evaluator's processor list are unchanged, and
`VoreenMainWindow::rebuildShaders` returns after logging a warning and showing
the error dialog. -/
theorem rebuildShaders_failure_reported (env : Env) (w : VoreenMainWindow) :
    ((w.vis_.rebuildShaders env).1 = true ↔ env.rebuildAllShadersFromFile = true) ∧
    (env.rebuildAllShadersFromFile = false →
      (w.vis_.rebuildShaders env).1 = false ∧
      (w.vis_.rebuildShaders env).2.trace = w.vis_.trace ++ [.rebuildAllShadersFromFile] ∧
      Call.invalidateRendering ∉ (w.vis_.rebuildShaders env).2.trace.drop w.vis_.trace.length ∧
      Call.canvasUpdate ∉ (w.vis_.rebuildShaders env).2.trace.drop w.vis_.trace.length ∧
      (w.vis_.rebuildShaders env).2.heap = w.vis_.heap ∧
      (w.vis_.rebuildShaders env).2.processorNetwork_ = w.vis_.processorNetwork_ ∧
      (w.vis_.rebuildShaders env).2.evaluatorProcessors = w.vis_.evaluatorProcessors ∧
      (w.rebuildShaders env).vis_ = (w.vis_.rebuildShaders env).2 ∧
      (w.rebuildShaders env).ui = w.ui ++
        [.setOverrideCursor, .logWarning "Shader reloading failed", .restoreOverrideCursor,
         .consoleShow, .processEvents,
         .critical "Shader reloading"
           "Shader reloading failed.\nSee the Debug Console for details.",
         .restoreOverrideCursor]) := by
  constructor
  · by_cases h : env.rebuildAllShadersFromFile = true <;>
      simp [VoreenVisualization.rebuildShaders, h]
  · intro h
    simp [VoreenVisualization.rebuildShaders, VoreenMainWindow.rebuildShaders,
      VoreenVisualization.record, VoreenMainWindow.record, h]

/-- Witness for C9: the example window when the shader rebuild fails. -/
theorem rebuildShaders_failure_reported_witness :
    (Example.window.vis_.rebuildShaders Example.envShadersFail).1 = false ∧
    (Example.window.vis_.rebuildShaders Example.envShadersFail).2.trace
      = Example.window.vis_.trace ++ [.rebuildAllShadersFromFile] ∧
    (Example.window.vis_.rebuildShaders Example.envShadersFail).2.heap
      = Example.window.vis_.heap :=
  have h := (rebuildShaders_failure_reported Example.envShadersFail Example.window).2 rfl
  ⟨h.1, h.2.1, h.2.2.2.2.1⟩

/-- C10: for every boolean `b`, on a visualization that holds a network, both
`saveNetwork(filename, b)` and `saveWorkspace(filename, b, w)` return after
exactly one call of the serializer, and the network handed over in that call
is the current network with its target-reuse flag equal to `b`: the flag is
written before serialization starts. -/
theorem save_hands_over_reuse_flag (env : Env) (s : VoreenVisualization)
    (filename : String) (b : Bool) (net : ProcessorNetwork) (hnet : s.network = some net) :
    (∃ r s' handed, s.saveNetwork env filename b = some (r, s') ∧
      s'.trace = s.trace ++ [.serializeToXml handed filename] ∧
      r = env.serializeToXml handed filename ∧
      handed.reuseTargets = b ∧ handed.processors = net.processors) ∧
    (∃ r s' handed, s.saveWorkspace env filename b = some (r, s') ∧
      s'.trace = s.trace ++ [.workspaceSerializeToXml handed filename] ∧
      r = env.workspaceSerializeToXml handed filename ∧
      handed.reuseTargets = b ∧ handed.processors = net.processors) := by
  unfold VoreenVisualization.network at hnet
  cases hp : s.processorNetwork_ with
  | none => simp [hp] at hnet
  | some a =>
    simp only [hp] at hnet
    have h1 := Heap.lookup_store_self s.heap a net (net.setReuseTargets b) hnet
    have h2 := Heap.delete_live (s.heap.store a (net.setReuseTargets b)) a _ h1
    constructor
    · cases hser : env.serializeToXml (net.setReuseTargets b) filename with
      | ok u =>
        simp only [VoreenVisualization.saveNetwork, hp, hnet, hser,
          VoreenVisualization.record]
        exact ⟨_, _, net.setReuseTargets b, rfl, rfl, hser.symm, rfl, rfl⟩
      | error e =>
        simp only [VoreenVisualization.saveNetwork, hp, hnet, hser,
          VoreenVisualization.record, h2]
        exact ⟨_, _, net.setReuseTargets b, rfl, rfl, hser.symm, rfl, rfl⟩
    · cases hser : env.workspaceSerializeToXml (net.setReuseTargets b) filename with
      | ok u =>
        simp only [VoreenVisualization.saveWorkspace, hp, hnet, hser,
          VoreenVisualization.record]
        exact ⟨_, _, net.setReuseTargets b, rfl, rfl, hser.symm, rfl, rfl⟩
      | error e =>
        simp only [VoreenVisualization.saveWorkspace, hp, hnet, hser,
          VoreenVisualization.record]
        exact ⟨_, _, net.setReuseTargets b, rfl, rfl, hser.symm, rfl, rfl⟩

/-- Witness for C10: saving the example visualization with the flag set. -/
theorem save_hands_over_reuse_flag_witness :
    (∃ r s' handed, Example.vis.saveNetwork Example.envOk "out.vnw" true = some (r, s') ∧
      s'.trace = Example.vis.trace ++ [.serializeToXml handed "out.vnw"] ∧
      r = Example.envOk.serializeToXml handed "out.vnw" ∧
      handed.reuseTargets = true ∧ handed.processors = Example.net.processors) ∧
    (∃ r s' handed, Example.vis.saveWorkspace Example.envOk "out.vnw" true = some (r, s') ∧
      s'.trace = Example.vis.trace ++ [.workspaceSerializeToXml handed "out.vnw"] ∧
      r = Example.envOk.workspaceSerializeToXml handed "out.vnw" ∧
      handed.reuseTargets = true ∧ handed.processors = Example.net.processors) :=
  save_hands_over_reuse_flag Example.envOk Example.vis "out.vnw" true Example.net rfl

/-! ## Claims about the geometry of MDI sub-windows -/

/-- C11: `VoreenMdiSubWindow::restoreGeometry(data)` returns true if and only if
`data` has at least 4 bytes, its first four bytes decode (big endian) to the
magic number 0x1234FFFF, and the following 16-bit field decodes to major
version 1, a field missing from a truncated array reading as 0; nothing is
asked of the minor version. -/
theorem restoreGeometry_true_iff (w : VoreenMdiSubWindow) (data : QByteArray) :
    (w.restoreGeometry data).1 = true ↔
      4 ≤ data.length ∧
      QDataStream.bigEndian (data.take 4) = 0x1234FFFF ∧
      (if 6 ≤ data.length then QDataStream.bigEndian ((data.drop 4).take 2) else 0) = 1 := by
  rw [restoreGeometry_fst]
  rcases data with _ | ⟨b0, _ | ⟨b1, _ | ⟨b2, _ | ⟨b3, _ | ⟨b4, _ | ⟨b5, rest⟩⟩⟩⟩⟩⟩ <;>
    simp [VoreenMdiSubWindow.magicNumber, QDataStream.readUInt32, QDataStream.readUInt16,
      QDataStream.bigEndian]

/-- C12: for every window `src`, `restoreGeometry` applied (to the same or to any
other sub-window `dst`) to the byte array produced by `src.saveGeometry()`
returns true, and afterwards the window is maximized if and only if `src` was
maximized when `saveGeometry` was called. -/
theorem restoreGeometry_saveGeometry_maximized (src dst : VoreenMdiSubWindow) :
    (dst.restoreGeometry src.saveGeometry).1 = true ∧
    ((dst.restoreGeometry src.saveGeometry).2.windowState.maximized = true ↔
      src.windowState.maximized = true) := by
  have hlen := saveGeometry_length src
  have hhead := saveGeometry_header src
  have hbyte := saveGeometry_maximized_byte src
  constructor
  · rw [restoreGeometry_fst]
    simp [hlen, hhead.1, hhead.2]
  · unfold VoreenMdiSubWindow.restoreGeometry
    dsimp only
    rw [hbyte]
    cases h : src.windowState.maximized <;>
      simp [hlen, hhead.1, hhead.2, VoreenMdiSubWindow.setWindowState,
        VoreenMdiSubWindow.setGeometry, VoreenMdiSubWindow.move, VoreenMdiSubWindow.resize]

/-! ## Claims about the recent-file list -/

/-- C13: for every stored recent-file list `L` and filename `f`,
`VoreenMainWindow::addToRecentFiles(f)` stores exactly the first
`MAX_RECENT_FILES` (5) elements of `f` followed by the entries of `L` that are
neither empty nor equal to `f`, in their original order; hence `f` is first,
occurs exactly once, and the stored list has at most 5 entries. -/
theorem addToRecentFiles_stores_prefix (w : VoreenMainWindow) (f : String) :
    (w.addToRecentFiles f).recentFileList =
      (f :: w.recentFileList.filter (fun x => x ≠ "" ∧ x ≠ f)).take 5 ∧
    (w.addToRecentFiles f).recentFileList.head? = some f ∧
    (w.addToRecentFiles f).recentFileList.count f = 1 ∧
    (w.addToRecentFiles f).recentFileList.length ≤ 5 := by
  have hlist : (w.addToRecentFiles f).recentFileList =
      (f :: w.recentFileList.filter (fun x => x ≠ "" ∧ x ≠ f)).take 5 := by
    rw [addToRecentFiles_list, List.filter_filter]
    simp [MAX_RECENT_FILES, Bool.and_comm]
  rw [hlist]
  refine ⟨rfl, by simp, ?_, by simp⟩
  have hnot : f ∉ (w.recentFileList.filter (fun x => x ≠ "" ∧ x ≠ f)).take 4 := by
    intro hmem
    have := List.mem_of_mem_take hmem
    simp [List.mem_filter] at this
  rw [List.take_succ_cons, List.count_cons_self, List.count_eq_zero_of_not_mem hnot]

/-- C14 (as stated, refuted): adding the empty filename to the stored list
`["old.vnw"]` stores `["", "old.vnw"]`, a list with an empty entry. -/
theorem addToRecentFiles_empty_filename_counterexample :
    (Example.window.addToRecentFiles "").recentFileList = ["", "old.vnw"] ∧
    "" ∈ (Example.window.addToRecentFiles "").recentFileList := by
  constructor <;> decide

/-- C14 (amended): for every non-empty filename `f` and every stored recent-file
list, after `VoreenMainWindow::addToRecentFiles(f)` the stored list contains no
empty entries. -/
theorem addToRecentFiles_no_empty_entries (w : VoreenMainWindow) (f : String)
    (hf : f ≠ "") : "" ∉ (w.addToRecentFiles f).recentFileList := by
  rw [addToRecentFiles_list]
  intro hmem
  have hmem2 := List.mem_of_mem_take hmem
  simp only [List.mem_cons, List.mem_filter, ne_eq, decide_not, Bool.not_eq_true,
    decide_eq_false_iff_not, Bool.not_eq_eq_eq_not, Bool.not_true] at hmem2
  rcases hmem2 with h | h
  · exact hf h.symm
  · simp at h

/-- Witness for the amended C14: adding "new.vnw" to a stored list with empty entries. -/
theorem addToRecentFiles_no_empty_entries_witness :
    "" ∉ (VoreenMainWindow.addToRecentFiles
      { Example.window with recentFileList := ["", "old.vnw", ""] }
      "new.vnw").recentFileList :=
  addToRecentFiles_no_empty_entries
    { Example.window with recentFileList := ["", "old.vnw", ""] } "new.vnw" (by decide)

/-! ## Claims about the settings -/

/-- C15 (the code at failing inputs): `saveSettings` stores the option under the key
`MainWindow/loadLastworkspace`, `loadSettings` reads `MainWindow/loadLastWorkspace`.
With the option on and empty settings, saving and loading again (with
`resetSettings_` false) leaves `loadLastWorkspace_` false; with the option off
and an older entry under the key that is read, it comes back true. -/
theorem settings_roundtrip_loses_loadLastWorkspace :
    (Example.windowLoadLast.loadLastWorkspace_ = true ∧
      Example.windowLoadLast.resetSettings_ = false ∧
      ((Example.windowLoadLast.saveSettings Example.app).loadSettings
        Example.app).loadLastWorkspace_ = false ∧
      (Example.windowLoadLast.saveSettings Example.app).settings_.value
        "MainWindow/loadLastworkspace" .invalid = .bool true ∧
      (Example.windowLoadLast.saveSettings Example.app).settings_.value
        "MainWindow/loadLastWorkspace" .invalid = .invalid) ∧
    (Example.windowStaleSetting.loadLastWorkspace_ = false ∧
      Example.windowStaleSetting.resetSettings_ = false ∧
      ((Example.windowStaleSetting.saveSettings Example.app).loadSettings
        Example.app).loadLastWorkspace_ = true) := by
  decide

/-! ## Further claims about `evaluateNetwork` -/

/-- C16: a call of `VoreenVisualization::evaluateNetwork` returns, and it returns
false if and only if `analyze()` gives a value >= 0 and `initializeGL()` gives a
status other than `Processor::VRN_OK`; in particular it returns true when
`analyze()` gives a negative error value. -/
theorem evaluateNetwork_false_iff (env : Env) (s : VoreenVisualization)
    (ps : List Processor) (hps : s.currentProcessors = some ps) :
    ∃ r s', s.evaluateNetwork env = some (r, s') ∧
      (r = false ↔ (env.analyze ps ≥ 0 ∧ env.initializeGL ps ≠ env.VRN_OK)) ∧
      (env.analyze ps < 0 → r = true) := by
  rw [evaluateNetwork_eq env s ps hps]
  by_cases ha : env.analyze ps ≥ 0
  · by_cases hi : env.initializeGL ps ≠ env.VRN_OK
    · refine ⟨_, _, by rw [if_pos ha, if_pos hi], by simp [ha, hi], fun h => by omega⟩
    · refine ⟨_, _, by rw [if_pos ha, if_neg hi], by simp [ha, hi], fun _ => rfl⟩
  · refine ⟨_, _, by rw [if_neg ha], by simp [ha], fun _ => rfl⟩

/-- Witness for C16: the example visualization with a failing analysis returns true. -/
theorem evaluateNetwork_false_iff_witness :
    ∃ r s', Example.vis.evaluateNetwork Example.envAnalyzeFails = some (r, s') ∧
      (r = false ↔ (Example.envAnalyzeFails.analyze [Example.p1, Example.q] ≥ 0 ∧
        Example.envAnalyzeFails.initializeGL [Example.p1, Example.q]
          ≠ Example.envAnalyzeFails.VRN_OK)) ∧
      (Example.envAnalyzeFails.analyze [Example.p1, Example.q] < 0 → r = true) :=
  evaluateNetwork_false_iff Example.envAnalyzeFails Example.vis [Example.p1, Example.q]
    (by decide)

/-- C17: in every call of `VoreenVisualization::evaluateNetwork` in which
`analyze()` succeeds, the calls made are, in this order: the hand-over of the
processors, `analyze`, `getGLFocus`, the evaluator's `setSize` with the canvas
size, `initializeGL`, and then the canvas repaint exactly when `initializeGL`
returned `VRN_OK`.  So `setSize` comes after `analyze` and before
`initializeGL`, and the repaint, if it happens, comes after both. -/
theorem evaluateNetwork_call_order (env : Env) (s : VoreenVisualization)
    (ps : List Processor) (hps : s.currentProcessors = some ps)
    (hok : env.analyze ps ≥ 0) :
    ∃ r s', s.evaluateNetwork env = some (r, s') ∧
      s'.trace = s.trace ++
        ([.setVolumeSetContainer, .setProcessors ps, .postMessage .updateVolumeSetContainer,
          .analyze, .getGLFocus, .setSize env.canvasSize, .initializeGL] ++
         (if env.initializeGL ps = env.VRN_OK then [.repaint] else [])) := by
  rw [evaluateNetwork_eq env s ps hps, if_pos hok]
  by_cases hi : env.initializeGL ps ≠ env.VRN_OK
  · rw [if_pos hi]
    exact ⟨_, _, rfl, by simp [hi]⟩
  · rw [if_neg hi]
    exact ⟨_, _, rfl, by simp [not_not.mp hi]⟩

/-- Witness for C17: a fully successful evaluation of the example visualization. -/
theorem evaluateNetwork_call_order_witness :
    ∃ r s', Example.vis.evaluateNetwork Example.envOk = some (r, s') ∧
      s'.trace = Example.vis.trace ++
        ([.setVolumeSetContainer, .setProcessors [Example.p1, Example.q],
          .postMessage .updateVolumeSetContainer,
          .analyze, .getGLFocus, .setSize Example.envOk.canvasSize, .initializeGL] ++
         (if Example.envOk.initializeGL [Example.p1, Example.q] = Example.envOk.VRN_OK
          then [.repaint] else [])) :=
  evaluateNetwork_call_order Example.envOk Example.vis [Example.p1, Example.q]
    (by decide) (by decide)

/-! ## Claims about opening a workspace and about the observer relation -/

/-- C18: in `VoreenVisualization::openWorkspace`, whenever loading the workspace
succeeds, the calls made after the load are the camera re-initialisation, then
the post of the camera-changed message, then the post of the repaint message,
so the camera notification precedes the repaint; when loading throws, the
exception propagates from the state the loader left and `openWorkspace` posts
neither message. -/
theorem openWorkspace_posts_camera_before_repaint (loadFromXml : WorkspaceLoader)
    (w : VoreenMainWindow) (filename : String) :
    (∀ readOnly w1,
      loadFromXml filename { w with vis_ := { w.vis_ with readOnlyWorkspace_ := false } }
        = some (.ok readOnly, w1) →
      ∃ w', VoreenVisualization.openWorkspace loadFromXml w filename = some (.ok (), w') ∧
        w'.vis_.trace = w1.vis_.trace ++
          [.reinitializeCamera, .postMessage .cameraChanged, .postMessage .repaint] ∧
        w'.vis_.readOnlyWorkspace_ = readOnly) ∧
    (∀ e w1,
      loadFromXml filename { w with vis_ := { w.vis_ with readOnlyWorkspace_ := false } }
        = some (.error e, w1) →
      VoreenVisualization.openWorkspace loadFromXml w filename = some (.error e, w1)) := by
  constructor
  · intro readOnly w1 h
    simp only [VoreenVisualization.openWorkspace, h]
    exact ⟨_, rfl, rfl, rfl⟩
  · intro e w1 h
    simp only [VoreenVisualization.openWorkspace, h]

/-- Witness for C18: the example window with a loader that succeeds and with one that
throws. -/
theorem openWorkspace_posts_camera_before_repaint_witness :
    (∃ w', VoreenVisualization.openWorkspace Example.loaderOk Example.window "a.vws"
        = some (.ok (), w') ∧
      w'.vis_.trace = Example.window.vis_.trace ++
        [.reinitializeCamera, .postMessage .cameraChanged, .postMessage .repaint] ∧
      w'.vis_.readOnlyWorkspace_ = false) ∧
    VoreenVisualization.openWorkspace Example.loaderFails Example.window "a.vws"
      = some (.error { what := "could not open" }, Example.window) :=
  ⟨(openWorkspace_posts_camera_before_repaint Example.loaderOk Example.window "a.vws").1
      false Example.window rfl,
   (openWorkspace_posts_camera_before_repaint Example.loaderFails Example.window "a.vws").2
      { what := "could not open" } Example.window rfl⟩

/-- C19: each observer callback of `VoreenVisualization` (`networkChanged`,
`processorAdded`, `processorRemoved`) makes exactly one call, the emission of
`networkModified` with the current `processorNetwork_`, and with the connection
made in `VoreenMainWindow::init()` the slot `modified()` has marked the main
window modified when the callback returns. -/
theorem observer_callbacks_emit_networkModified (w : VoreenMainWindow) (p : Processor) :
    (w.vis_.networkChanged.trace
        = w.vis_.trace ++ [.emitNetworkModified w.vis_.processorNetwork_] ∧
      (w.notify VoreenVisualization.networkChanged).vis_ = w.vis_.networkChanged ∧
      (w.notify VoreenVisualization.networkChanged).windowModified = true) ∧
    ((w.vis_.processorAdded p).trace
        = w.vis_.trace ++ [.emitNetworkModified w.vis_.processorNetwork_] ∧
      (w.notify (fun v => v.processorAdded p)).vis_ = w.vis_.processorAdded p ∧
      (w.notify (fun v => v.processorAdded p)).windowModified = true) ∧
    ((w.vis_.processorRemoved p).trace
        = w.vis_.trace ++ [.emitNetworkModified w.vis_.processorNetwork_] ∧
      (w.notify (fun v => v.processorRemoved p)).vis_ = w.vis_.processorRemoved p ∧
      (w.notify (fun v => v.processorRemoved p)).windowModified = true) := by
  have hA : (w.vis_.processorAdded p).trace
      = w.vis_.trace ++ [.emitNetworkModified w.vis_.processorNetwork_] := by
    by_cases hp : p.isEventListener = true <;>
      simp [VoreenVisualization.processorAdded, VoreenVisualization.record, hp]
  have hR : (w.vis_.processorRemoved p).trace
      = w.vis_.trace ++ [.emitNetworkModified w.vis_.processorNetwork_] := by
    by_cases hp : p.isEventListener = true <;>
      simp [VoreenVisualization.processorRemoved, VoreenVisualization.record, hp]
  have hC : w.vis_.networkChanged.trace
      = w.vis_.trace ++ [.emitNetworkModified w.vis_.processorNetwork_] := by
    simp [VoreenVisualization.networkChanged, VoreenVisualization.record]
  refine ⟨⟨hC, ?_, ?_⟩, ⟨hA, ?_, ?_⟩, ⟨hR, ?_, ?_⟩⟩ <;>
    simp [VoreenMainWindow.notify, VoreenMainWindow.deliverSignals, hA, hR, hC,
      VoreenMainWindow.modified]

/-- C20 (the code at failing inputs): after `VoreenVisualization::clearScene()` on a
visualization that holds a network, and after the constructor, the
visualization holds a network of which it is not a registered observer:
`clearScene` assigns the new network to `processorNetwork_` before calling
`setNetwork(processorNetwork_)`, which then skips `addObserver(this)`, and the
constructor never calls `addObserver`. -/
theorem clearScene_leaves_network_unobserved (s : VoreenVisualization) (a : Nat)
    (net : ProcessorNetwork) (hp : s.processorNetwork_ = some a)
    (hnet : s.heap.lookup a = some net) :
    (∃ s' net', s.clearScene = some s' ∧ s'.network = some net' ∧
      Observer.visualization ∉ net'.observers) ∧
    (∃ net', VoreenVisualization.new.network = some net' ∧
      Observer.visualization ∉ net'.observers) := by
  constructor
  · have hdel := Heap.delete_live s.heap a net hnet
    have hnew := Heap.lookup_alloc (s.heap.set a none) ProcessorNetwork.new
    have hcoll : ProcessorNetwork.new.processors = [] := rfl
    simp only [VoreenVisualization.clearScene, VoreenVisualization.setNetwork, hp, hnet,
      VoreenVisualization.record, Option.bind_eq_bind, Option.some_bind, Option.pure_def,
      hdel, ne_eq, not_true_eq_false, if_false, hnew, hcoll,
      connectEventListeners_nil, collectProcessors_eq]
    refine ⟨_, ProcessorNetwork.new, rfl, ?_, by simp [ProcessorNetwork.new]⟩
    simp only [VoreenVisualization.network]
    exact hnew
  · exact ⟨ProcessorNetwork.new, rfl, by simp [ProcessorNetwork.new]⟩

/-- Witness for C20: `clearScene` on the example visualization, whose network had the
visualization registered. -/
theorem clearScene_leaves_network_unobserved_witness :
    Observer.visualization ∈ Example.net.observers ∧
    ((∃ s' net', Example.vis.clearScene = some s' ∧ s'.network = some net' ∧
        Observer.visualization ∉ net'.observers) ∧
      (∃ net', VoreenVisualization.new.network = some net' ∧
        Observer.visualization ∉ net'.observers)) :=
  ⟨by decide, clearScene_leaves_network_unobserved Example.vis 0 Example.net rfl rfl⟩

/-! ## Claims about the hand-over of the processors -/

/-- C21: `VoreenVisualization::evaluateNetwork` hands the evaluator, through one
`setProcessors` call, the list `ps` collected from the current network: when
the visualization holds a network, `ps` is exactly that network's processor
list (same length, same processor at every position, so nothing is repeated or
left out); when `processorNetwork_` is null, `ps` is empty.  The evaluator
holds `ps` afterwards, and the `setProcessors` call precedes `analyze()`, which
is called once and with no further `setProcessors` after it. -/
theorem evaluateNetwork_hands_over_processors (env : Env) (s : VoreenVisualization)
    (ps : List Processor) (hps : s.currentProcessors = some ps) :
    (∀ net, s.network = some net →
      ps = net.processors ∧ ps.length = net.getNumProcessors ∧
      ∀ i : Nat, ps[i]? = net.getProcessors[i]?) ∧
    (s.processorNetwork_ = none → ps = []) ∧
    ∃ r s' rest, s.evaluateNetwork env = some (r, s') ∧
      s'.evaluatorProcessors = ps ∧
      s'.trace = s.trace ++ ([.setVolumeSetContainer, .setProcessors ps,
        .postMessage .updateVolumeSetContainer, .analyze] ++ rest) ∧
      Call.analyze ∉ rest ∧ ∀ l, Call.setProcessors l ∉ rest := by
  refine ⟨?_, ?_, ?_⟩
  · intro net hnet
    have h := currentProcessors_of_network s net hnet
    rw [hps] at h
    have hEq : ps = net.processors := Option.some.inj h
    subst hEq
    exact ⟨rfl, rfl, fun _ => rfl⟩
  · intro hnull
    have h := currentProcessors_of_null s hnull
    rw [hps] at h
    exact Option.some.inj h
  · obtain ⟨r, s', rest, hev, hproc, htrace, hrest⟩ := evaluateNetwork_trace env s ps hps
    refine ⟨r, s', rest, hev, hproc, htrace, ?_, ?_⟩
    · rcases hrest with h | h | h <;> simp [h]
    · intro l
      rcases hrest with h | h | h <;> simp [h]

/-- Witness for C21: the example visualization, whose network holds `p1` and `q`. -/
theorem evaluateNetwork_hands_over_processors_witness :
    Example.vis.network = some Example.net ∧
    ∃ r s' rest, Example.vis.evaluateNetwork Example.envOk = some (r, s') ∧
      s'.evaluatorProcessors = [Example.p1, Example.q] ∧
      s'.trace = Example.vis.trace ++ ([.setVolumeSetContainer,
        .setProcessors [Example.p1, Example.q],
        .postMessage .updateVolumeSetContainer, .analyze] ++ rest) ∧
      Call.analyze ∉ rest ∧ ∀ l, Call.setProcessors l ∉ rest :=
  ⟨rfl, (evaluateNetwork_hands_over_processors Example.envOk Example.vis
    [Example.p1, Example.q] (by decide)).2.2⟩

/-! ## Claims about the error dialog of a loaded network -/

/-- C22: on a visualization that holds a network, `VoreenMainWindow::showNetworkErrors`
returns, and it shows an error dialog if and only if the network's
`getErrors()` list is non-empty: with an empty list nothing changes, otherwise
exactly one `showMessage` call is made, whose text states the number of errors
and then holds one `<li>` item per error, in the order of the list, between
`<ul>` and `</ul>`. -/
theorem showNetworkErrors_dialog_iff (w : VoreenMainWindow) (net : ProcessorNetwork)
    (hnet : w.vis_.network = some net) :
    ∃ w', w.showNetworkErrors = some w' ∧
      ((∃ text, UiCall.showMessage text ∈ w'.ui.drop w.ui.length) ↔ net.getErrors ≠ []) ∧
      (net.getErrors = [] → w' = w) ∧
      (net.getErrors ≠ [] →
        w' = w.record [.showMessage
          ("There were " ++ toString net.getErrors.length
            ++ " errors loading the network:\n<ul>"
            ++ String.join (net.getErrors.map (fun e => "<li>" ++ e ++ "</li>\n"))
            ++ "\n</ul>")]) := by
  have herr : w.vis_.getNetworkErrors = some net.getErrors := by
    simp [VoreenVisualization.getNetworkErrors, hnet]
  by_cases hempty : net.getErrors = []
  · refine ⟨w, ?_, ?_, fun _ => rfl, fun h => absurd hempty h⟩
    · simp [VoreenMainWindow.showNetworkErrors, herr, hempty]
    · simp [hempty]
  · have hne : net.getErrors.isEmpty = false := by
      cases h : net.getErrors with
      | nil => exact absurd h hempty
      | cons _ _ => rfl
    refine ⟨w.record [.showMessage (VoreenMainWindow.networkErrorsMessage net.getErrors)],
      ?_, ?_, fun h => absurd h hempty, fun _ => by rw [networkErrorsMessage_eq]⟩
    · simp [VoreenMainWindow.showNetworkErrors, herr, hne, hempty]
    · simp [VoreenMainWindow.record, hempty]

/-- Witness for C22: the example window over a network with the errors `e1` and `e2`. -/
theorem showNetworkErrors_dialog_iff_witness :
    ∃ w', Example.windowWithErrors.showNetworkErrors = some w' ∧
      w' = Example.windowWithErrors.record [.showMessage
        ("There were " ++ toString 2 ++ " errors loading the network:\n<ul>"
          ++ String.join (["e1", "e2"].map (fun e => "<li>" ++ e ++ "</li>\n"))
          ++ "\n</ul>")] :=
  (showNetworkErrors_dialog_iff Example.windowWithErrors
    { Example.net with errors := ["e1", "e2"] } rfl).elim
    (fun w' h => ⟨w', h.1, h.2.2.2 (by decide)⟩)

/-! ## Idempotence claims -/

/-- C23: `VoreenMainWindow::addToRecentFiles` is idempotent on the stored list:
for every stored list and every filename `f`, calling `addToRecentFiles(f)`
twice in a row stores the same recent-file list as calling it once. -/
theorem addToRecentFiles_idempotent (w : VoreenMainWindow) (f : String) :
    ((w.addToRecentFiles f).addToRecentFiles f).recentFileList =
      (w.addToRecentFiles f).recentFileList := by
  rw [addToRecentFiles_list (w.addToRecentFiles f) f, addToRecentFiles_list w f]
  simp only [MAX_RECENT_FILES, List.take_succ_cons]
  have hkeep : ∀ x ∈ List.take 4 ((w.recentFileList.filter (fun x => x ≠ "")).filter
      (fun x => x ≠ f)), x ≠ "" ∧ x ≠ f := by
    intro x hx
    have hmem := List.mem_of_mem_take hx
    simp only [List.mem_filter, ne_eq, decide_not, Bool.not_eq_true,
      decide_eq_false_iff_not, Bool.not_eq_eq_eq_not, Bool.not_true] at hmem
    exact ⟨hmem.1.2, hmem.2⟩
  have hrest : ((f :: List.take 4 ((w.recentFileList.filter (fun x => x ≠ "")).filter
      (fun x => x ≠ f))).filter (fun x => x ≠ "")).filter (fun x => x ≠ f)
      = List.take 4 ((w.recentFileList.filter (fun x => x ≠ "")).filter
        (fun x => x ≠ f)) := by
    rw [List.filter_filter]
    rw [List.filter_cons_of_neg (by simp)]
    apply List.filter_eq_self.mpr
    intro x hx
    have h := hkeep x hx
    simp [h.1, h.2]
  rw [hrest, List.take_take]
  simp

/-- C24: `VoreenMainWindow::setGuiMode` is idempotent: for every mode `m`, after
`setGuiMode(m)` the field `guiMode_` equals `m`, and an immediately repeated
`setGuiMode(m)` returns at once, leaving the whole state as it was: no saved
window state, widget visibility or other field changes and no call is made. -/
theorem setGuiMode_idempotent (app : AppEnv) (w : VoreenMainWindow) (m : GuiMode) :
    (w.setGuiMode app m).guiMode_ = m ∧
    (w.setGuiMode app m).setGuiMode app m = w.setGuiMode app m := by
  have hmode : (w.setGuiMode app m).guiMode_ = m := by
    unfold VoreenMainWindow.setGuiMode
    by_cases h : w.guiMode_ = m
    · rw [if_pos h]; exact h
    · rw [if_neg h]
  refine ⟨hmode, ?_⟩
  generalize w.setGuiMode app m = w1 at hmode ⊢
  unfold VoreenMainWindow.setGuiMode
  rw [if_pos hmode]

end Voreen
